import Mathlib

/-!
# Menumate backend: table permissions, table controller, reviews, analytics

A shallow embedding of the controllers of the Menumate backend
(`controllers/tableController.js`, `controllers/reviewController.js`,
`controllers/analyticsController.js`) together with the properties of the
written specification that can be settled against them.

Conventions of the embedding.

* An `ObjectId` is represented by its string form (what `.toString()` returns);
  the controllers only ever compare ids through that form.  A path parameter
  is an arbitrary string: a `findById` query first casts it to an `ObjectId`
  and rejects with a `CastError` when it does not cast.  Which strings cast
  is decided by the driver, so the test is a parameter (`isObjectId`) of the
  operations that run such a query.
* A collection of the document store is a list of documents; `findById`,
  `find`, `findOne`, `distinct`, `create`, `insertMany` and
  `findOneAndDelete` are the list operations they denote.
* The Mongoose schemas (`models/*.js`) are not embedded.  Where a write can
  be rejected by schema validation the validator is a parameter of the
  operation, and a rejected write surfaces as the handler's `catch` branch
  (status 500).
* A handler returns the response it sends together with the new contents of
  the collection it may write.
* Numbers of a JSON body are integers; the clock is an input of the code
  that reads it.
-/

set_option autoImplicit false

namespace Menumate

/-! ## JavaScript values that reach the controllers through a JSON body -/

/-- String form of a document identifier. -/
abbrev ObjectId := String

/-- Values of a JSON request body, plus `undefined` for an absent property. -/
inductive JsVal where
  | undefined : JsVal
  | null : JsVal
  | bool (b : Bool) : JsVal
  | num (n : Int) : JsVal
  | str (s : String) : JsVal
  | arr (items : List JsVal) : JsVal
  | obj (fields : List (String × JsVal)) : JsVal

namespace JsVal

/-- JavaScript truthiness (`ToBoolean`). -/
def truthy : JsVal → Bool
  | undefined => false
  | null => false
  | bool b => b
  | num n => n != 0
  | str s => s != ""
  | arr _ => true
  | obj _ => true

/-- The test `Array.isArray`. -/
def isArray : JsVal → Bool
  | arr _ => true
  | _ => false

/-- Property lookup in the field list of an object literal. -/
def lookup (key : String) : List (String × JsVal) → JsVal
  | [] => undefined
  | (k, v) :: rest => if k = key then v else lookup key rest

/-- Property read `v.key`: a `TypeError` (here `none`) on `null` and
`undefined`, the field of an object, and `undefined` for a property that a
primitive or an array of a JSON body does not have. -/
def getProp (key : String) : JsVal → Option JsVal
  | undefined => none
  | null => none
  | obj fields => some (lookup key fields)
  | _ => some undefined

end JsVal

/-! ## Documents -/

/-- Document of the `Shop` collection (the fields the controllers read). -/
structure Shop where
  _id : ObjectId
  owner : ObjectId
  foodCourt : Option ObjectId
  deriving DecidableEq, Repr

/-- Document of the `Vendor` collection, the acting identity `req.vendor`. -/
structure Vendor where
  _id : ObjectId
  role : String
  managesFoodCourt : Option ObjectId
  deriving DecidableEq, Repr

/-- Document of the `Table` collection. -/
structure Table where
  shop : ObjectId
  tableNumber : JsVal
  qrIdentifier : JsVal

/-- Document of the `User` collection (the projected fields). -/
structure User where
  _id : ObjectId
  name : String
  email : String
  phone : String
  createdAt : Int
  deriving DecidableEq, Repr

/-- Outcome of a `findById` query on a path parameter: the promise rejects
with a `CastError` when the parameter does not cast to an `ObjectId`,
resolves to `null` when no document has the id, and to the document
otherwise. -/
inductive Lookup (α : Type) where
  | castError : Lookup α
  | missing : Lookup α
  | found (doc : α) : Lookup α
  deriving DecidableEq, Repr

/-- The query `Shop.findById(shopId)`. -/
def Shop.findById (isObjectId : String → Bool) (shops : List Shop) (shopId : String) :
    Lookup Shop :=
  if isObjectId shopId then
    match shops.find? (fun s => s._id == shopId) with
    | none => Lookup.missing
    | some shop => Lookup.found shop
  else Lookup.castError

/-! ## controllers/tableController.js -/

/-- Result object of `checkTablePermissions`; an absent property is `none`. -/
structure AuthCheck where
  authorized : Bool
  status : Option Nat
  message : Option String
  shop : Option Shop
  deriving DecidableEq, Repr

/-- Default denial message of `checkTablePermissions`. -/
def genericDenied : String :=
  "You do not have permission to manage tables for this shop."

/-- Denial message of `checkTablePermissions` for a food-court shop. -/
def foodCourtDenied : String :=
  "Only the Admin or Food Court Manager can manage tables for this shop."

/-- The pair `(isAuthorized, errorMessage)` after the three rules of
`checkTablePermissions` have run on a shop that was found. -/
def permissionRules (shop : Shop) (currentUser : Vendor) : Bool × String :=
  if currentUser.role = "admin" then
    (true, genericDenied)
  else
    match shop.foodCourt with
    | some fc =>
      match currentUser.managesFoodCourt with
      | some m => if m = fc then (true, genericDenied) else (false, foodCourtDenied)
      | none => (false, foodCourtDenied)
    | none =>
      if shop.owner = currentUser._id then (true, genericDenied)
      else (false, genericDenied)

/-- The helper `checkTablePermissions(shopId, currentUser)`: `none` when
the promise rejects (the shop query threw), else the object it resolves to. -/
def checkTablePermissions (isObjectId : String → Bool) (shops : List Shop)
    (shopId : String) (currentUser : Vendor) : Option AuthCheck :=
  match Shop.findById isObjectId shops shopId with
  | Lookup.castError => none
  | Lookup.missing =>
    some { authorized := false, status := some 404, message := some "Shop not found",
           shop := none }
  | Lookup.found shop =>
    let r := permissionRules shop currentUser
    if !r.1 then
      some { authorized := false, status := some 403, message := some r.2, shop := none }
    else
      some { authorized := true, status := none, message := none, shop := some shop }

/-- JSON envelope answered by the table handlers; an absent key is `none`. -/
structure TableResponse where
  status : Nat
  success : Option Bool
  message : Option String
  count : Option Nat
  data : Option (List Table)

/-- The answer of a `catch` branch of the table controller. -/
def tableServerError (msg : String) (success : Option Bool) : TableResponse :=
  { status := 500, success := success, message := some msg, count := none, data := none }

/-- The answer sent when `checkTablePermissions` does not authorize. -/
def tableDenied (authCheck : AuthCheck) : TableResponse :=
  { status := authCheck.status.getD 0, success := some false,
    message := authCheck.message, count := none, data := none }

/-- The fields `{ tableNumber, qrIdentifier, tableNumbers }` destructured
from `req.body` (an object produced by the JSON body parser). -/
structure TableBody where
  tableNumber : JsVal
  qrIdentifier : JsVal
  tableNumbers : JsVal

/-- The mapping `tableNumbers.map(t => ({ shop, tableNumber: t.tableNumber,
qrIdentifier: t.qrIdentifier }))`; `none` when reading a property of an
element throws. -/
def tablesToCreate (shopId : ObjectId) : List JsVal → Option (List Table)
  | [] => some []
  | t :: rest =>
    match t.getProp "tableNumber", t.getProp "qrIdentifier", tablesToCreate shopId rest with
    | some n, some q, some ts =>
      some ({ shop := shopId, tableNumber := n, qrIdentifier := q } :: ts)
    | _, _, _ => none

/-- The write `Table.insertMany(docs)` (and `Table.create(doc)` for one
document): the documents are validated against the schema, then appended;
`none` when the model throws. -/
def Table.insertMany (validate : Table → Bool) (tables docs : List Table) :
    Option (List Table × List Table) :=
  if docs.all validate then some (docs, tables ++ docs) else none

/-- The 201 answer of `createTableForShop`. -/
def tablesCreated (createdTables : List Table) : TableResponse :=
  { status := 201, success := some true,
    message := some (toString createdTables.length ++ " QR code(s) created successfully."),
    count := none, data := some createdTables }

/-- The handler `createTableForShop` (POST /api/shops/:shopId/tables). -/
def createTableForShop (isObjectId : String → Bool) (validate : Table → Bool)
    (shops : List Shop) (tables : List Table) (shopId : String) (vendor : Vendor)
    (body : TableBody) : TableResponse × List Table :=
  match checkTablePermissions isObjectId shops shopId vendor with
  | none => (tableServerError "Server Error" (some false), tables)
  | some authCheck =>
  if !authCheck.authorized then
    (tableDenied authCheck, tables)
  else
    match body.tableNumbers with
    | JsVal.arr items =>
      match tablesToCreate shopId items with
      | none => (tableServerError "Server Error" (some false), tables)
      | some docs =>
        match Table.insertMany validate tables docs with
        | none => (tableServerError "Server Error" (some false), tables)
        | some (createdTables, tables') => (tablesCreated createdTables, tables')
    | _ =>
      if body.tableNumber.truthy && body.qrIdentifier.truthy then
        match Table.insertMany validate tables
            [{ shop := shopId, tableNumber := body.tableNumber,
               qrIdentifier := body.qrIdentifier }] with
        | none => (tableServerError "Server Error" (some false), tables)
        | some (createdTables, tables') => (tablesCreated createdTables, tables')
      else
        ({ status := 400, success := some false,
           message := some "A tableNumber and qrIdentifier are required.",
           count := none, data := none }, tables)

/-- The query `Table.find({ shop: shopId })`. -/
def Table.find (tables : List Table) (shopId : ObjectId) : List Table :=
  tables.filter (fun t => t.shop == shopId)

/-- The handler `getTablesForShop` (GET /api/shops/:shopId/tables). -/
def getTablesForShop (isObjectId : String → Bool) (shops : List Shop)
    (tables : List Table) (shopId : String) (vendor : Vendor) :
    TableResponse × List Table :=
  match checkTablePermissions isObjectId shops shopId vendor with
  | none => (tableServerError "Server Error" (some false), tables)
  | some authCheck =>
  if !authCheck.authorized then
    (tableDenied authCheck, tables)
  else
    let found := Table.find tables shopId
    ({ status := 200, success := some true, message := none,
       count := some found.length, data := some found }, tables)

/-- Whether a stored value equals the string of a query filter. -/
def JsVal.eqStr (q : String) : JsVal → Bool
  | JsVal.str s => s == q
  | _ => false

/-- The write `Table.findOneAndDelete({ shop: shopId, qrIdentifier })`:
the first matching document, if any, is removed. -/
def Table.findOneAndDelete (tables : List Table) (shopId : ObjectId)
    (qrIdentifier : String) : List Table :=
  tables.eraseP (fun t => t.shop == shopId && t.qrIdentifier.eqStr qrIdentifier)

/-- The handler `deleteTableForShop`: it reads `shopId` and `qrIdentifier`
from the path and nothing else from the request. -/
def deleteTableForShop (tables : List Table) (shopId : ObjectId)
    (qrIdentifier : String) : TableResponse × List Table :=
  ({ status := 200, success := none, message := some "Table deleted successfully",
     count := none, data := none },
   Table.findOneAndDelete tables shopId qrIdentifier)

/-! ## controllers/reviewController.js -/

/-- Document of the `Order` collection (the fields the controllers read);
`user` is absent on a guest order, `createdAt` is a time value in
milliseconds since the epoch. -/
structure Order where
  _id : ObjectId
  shop : ObjectId
  user : Option ObjectId
  orderStatus : String
  totalAmount : Int
  createdAt : Int
  deriving DecidableEq, Repr

/-- Document of the `Review` collection, as handed to `Review.create`. -/
structure Review where
  rating : JsVal
  comment : JsVal
  user : ObjectId
  shop : ObjectId
  order : ObjectId

/-- JSON envelope answered by `createReview`. -/
structure ReviewResponse where
  status : Nat
  success : Bool
  message : String
  data : Option Review

/-- The query `Order.findById(orderId)`. -/
def Order.findById (isObjectId : String → Bool) (orders : List Order)
    (orderId : String) : Lookup Order :=
  if isObjectId orderId then
    match orders.find? (fun o => o._id == orderId) with
    | none => Lookup.missing
    | some order => Lookup.found order
  else Lookup.castError

/-- The query `Review.findOne({ order: orderId })`. -/
def Review.findOne (reviews : List Review) (orderId : ObjectId) : Option Review :=
  reviews.find? (fun r => r.order == orderId)

/-- The answer of the `catch` branch of `createReview`. -/
def reviewServerError : ReviewResponse :=
  { status := 500, success := false, message := "Server Error", data := none }

/-- The handler `createReview` (POST /api/orders/:orderId/review).
`userId` is `req.user._id`, `rating` and `comment` come from `req.body`,
`validate` is the schema validation run by `Review.create`. -/
def createReview (isObjectId : String → Bool) (validate : Review → Bool)
    (orders : List Order) (reviews : List Review) (orderId : String) (userId : ObjectId)
    (rating comment : JsVal) : ReviewResponse × List Review :=
  match Order.findById isObjectId orders orderId with
  | Lookup.castError => (reviewServerError, reviews)
  | Lookup.missing =>
    ({ status := 404, success := false, message := "Order not found.", data := none },
     reviews)
  | Lookup.found order =>
    match order.user with
    | none => (reviewServerError, reviews)
    | some orderUser =>
      if orderUser ≠ userId then
        ({ status := 403, success := false,
           message := "You can only review your own orders.", data := none }, reviews)
      else if order.orderStatus ≠ "Completed" then
        ({ status := 400, success := false,
           message := "You can only review completed orders.", data := none }, reviews)
      else
        match Review.findOne reviews orderId with
        | some _ =>
          ({ status := 400, success := false,
             message := "You have already submitted a review for this order.",
             data := none }, reviews)
        | none =>
          let review : Review :=
            { rating := rating, comment := comment, user := userId,
              shop := order.shop, order := orderId }
          if validate review then
            ({ status := 201, success := true, message := "Thank you for your review!",
               data := some review }, reviews ++ [review])
          else
            (reviewServerError, reviews)

/-- One `createReview` request: the path's order id, the caller and the body. -/
structure ReviewRequest where
  orderId : String
  userId : ObjectId
  rating : JsVal
  comment : JsVal

/-- The review collection after serving the requests one after the other. -/
def reviewsAfter (isObjectId : String → Bool) (validate : Review → Bool)
    (orders : List Order) : List Review → List ReviewRequest → List Review
  | reviews, [] => reviews
  | reviews, q :: rest =>
    reviewsAfter isObjectId validate orders
      (createReview isObjectId validate orders reviews q.orderId q.userId q.rating
        q.comment).2 rest

/-- The statuses answered when the requests are served one after the other. -/
def reviewStatuses (isObjectId : String → Bool) (validate : Review → Bool)
    (orders : List Order) : List Review → List ReviewRequest → List Nat
  | _, [] => []
  | reviews, q :: rest =>
    let r := createReview isObjectId validate orders reviews q.orderId q.userId q.rating
      q.comment
    r.1.status :: reviewStatuses isObjectId validate orders r.2 rest

/-- The store invariant: no two reviews refer to the same order. -/
def OneReviewPerOrder (reviews : List Review) : Prop :=
  (reviews.map (fun r => r.order)).Nodup

/-! ## Numbers: binary64 rounding, `toFixed(1)`, `parseFloat`

A JavaScript number is a binary64 value; the finite ones are rationals.  The
functions below give, as exact rationals, the binary64 value nearest to a
rational and the decimal that `toFixed(1)` prints.  Overflow to `Infinity`
and subnormal numbers are outside their range of use (averages of ratings). -/

/-- The binade of a non-zero rational: the integer `e` with
`2 ^ e ≤ |q| < 2 ^ (e + 1)`. -/
def binade (q : ℚ) : Int := Int.log 2 |q|

/-- Rounding to the nearest integer, a tie going to the even one. -/
def roundHalfEven (x : ℚ) : Int :=
  let f := ⌊x⌋
  if x - f < 1 / 2 then f
  else if 1 / 2 < x - f then f + 1
  else if f % 2 = 0 then f else f + 1

/-- The binary64 number nearest to `q` (53 significant bits, round to
nearest, ties to even). -/
def toDouble (q : ℚ) : ℚ :=
  if q = 0 then 0
  else roundHalfEven (q / (2 : ℚ) ^ (binade q - 52)) * (2 : ℚ) ^ (binade q - 52)

/-- The decimal printed by `x.toFixed(1)`: below `10 ^ 21` in magnitude the
sign of `x` and `n / 10` for the integer `n` nearest to `10 * |x|`, the
larger one when two are equally near; from `10 ^ 21` on the number itself. -/
def toFixed1 (x : ℚ) : ℚ :=
  if (10 : ℚ) ^ 21 ≤ |x| then x
  else if x < 0 then -((⌊10 * -x + 1 / 2⌋ : Int) : ℚ) / 10
  else ((⌊10 * x + 1 / 2⌋ : Int) : ℚ) / 10

/-- The expression `parseFloat(x.toFixed(1))` for a number `x`: the binary64
number nearest to the printed decimal. -/
def parseFloatToFixed1 (x : ℚ) : ℚ := toDouble (toFixed1 x)

/-! ## controllers/reviewController.js: the review list and the rating pipeline -/

/-- The number `$avg` reads from a field value; other values are ignored. -/
def JsVal.number? : JsVal → Option Int
  | JsVal.num n => some n
  | _ => none

/-- The accumulator `$avg` over the values of a group: `null` (here `none`)
when none of them is a number, else the binary64 quotient of their sum and
their count.  The sum of integer ratings is computed exactly. -/
def avgOf (values : List JsVal) : Option ℚ :=
  match values.filterMap JsVal.number? with
  | [] => none
  | n :: rest =>
    some (toDouble ((((n :: rest).sum : Int) : ℚ) / (((n :: rest).length : Nat) : ℚ)))

/-- Row produced by the `$group` stage of the rating pipelines. -/
structure RatingStats where
  averageRating : Option ℚ
  reviewCount : Nat

/-- The rating pipeline `[{ $match: { shop } }, { $group: { averageRating:
{ $avg: "$rating" }, ... } }]`: no row when the shop has no review, else
one row. -/
def ratingAggregate (reviews : List Review) (shopId : ObjectId) : List RatingStats :=
  match reviews.filter (fun r => r.shop == shopId) with
  | [] => []
  | r :: rest =>
    [{ averageRating := avgOf ((r :: rest).map (fun x => x.rating)),
       reviewCount := (r :: rest).length }]

/-- A review of the list answered by `getReviewsForShop`: the review with
its `user` populated by the user's name (`none` when no user has the id). -/
structure PopulatedReview where
  review : Review
  userName : Option String

/-- JSON envelope answered by `getReviewsForShop`. -/
structure ReviewsResponse where
  status : Nat
  success : Bool
  message : Option String
  count : Option Nat
  averageRating : Option ℚ
  data : Option (List PopulatedReview)

/-- The answer of the `catch` branch of `getReviewsForShop`. -/
def reviewsServerError : ReviewsResponse :=
  { status := 500, success := false, message := some "Server Error", count := none,
    averageRating := none, data := none }

/-- The query `Review.find({ shop }).populate('user', 'name').sort({
createdAt: -1 })`; `createdAt` is the timestamp the schema gives a stored
review. -/
def Review.findForShop (createdAt : Review → Int) (users : List User)
    (reviews : List Review) (shopId : ObjectId) : List PopulatedReview :=
  ((reviews.filter (fun r => r.shop == shopId)).insertionSort
      (fun a b => createdAt b ≤ createdAt a)).map
    (fun r => { review := r,
                userName := (users.find? (fun u => u._id == r.user)).map (fun u => u.name) })

/-- The handler `getReviewsForShop` (GET .../:shopId/reviews).  Building
`new mongoose.Types.ObjectId(shopId)` throws on a string that does not cast,
and so does `.toFixed(1)` on a `null` average. -/
def getReviewsForShop (isObjectId : String → Bool) (createdAt : Review → Int)
    (users : List User) (reviews : List Review) (shopId : String) : ReviewsResponse :=
  if !isObjectId shopId then reviewsServerError
  else
    let found := Review.findForShop createdAt users reviews shopId
    match ratingAggregate reviews shopId with
    | [] =>
      { status := 200, success := true, message := none, count := some found.length,
        averageRating := some 0, data := some found }
    | row :: _ =>
      match row.averageRating with
      | none => reviewsServerError
      | some avg =>
        { status := 200, success := true, message := none, count := some found.length,
          averageRating := some (parseFloatToFixed1 avg), data := some found }

/-! ## The `Date` built-ins used by `getDateRange`

Time values are integers, milliseconds since the epoch.  The functions below
are the abstract operations of the ECMAScript `Date` object that the methods
`setHours`, `setDate`, `setMonth`, `getDate` and `getMonth` are defined by.
Local time is UTC plus a fixed offset `tza` (no daylight-saving transition),
and every time value is taken to be in the range where `TimeClip` is the
identity. -/

/-- Milliseconds in a day. -/
def msPerDay : Int := 86400000

/-- The operation `Day(t)`. -/
def Day (t : Int) : Int := t / msPerDay

/-- The operation `TimeWithinDay(t)`. -/
def TimeWithinDay (t : Int) : Int := t % msPerDay

/-- The operation `DayFromYear(y)`: day number of 1 January of year `y`. -/
def DayFromYear (y : Int) : Int :=
  365 * (y - 1970) + (y - 1969) / 4 - (y - 1901) / 100 + (y - 1601) / 400

/-- The year containing day number `d`: the largest `y` with
`DayFromYear y ≤ d`, found from an estimate corrected by at most one year. -/
def yearFromDay (d : Int) : Int :=
  let y := 1970 + (400 * d) / 146097
  if d < DayFromYear y then y - 1
  else if DayFromYear (y + 1) ≤ d then y + 1
  else y

/-- The operation `YearFromTime(t)`. -/
def YearFromTime (t : Int) : Int := yearFromDay (Day t)

/-- Leap-year test behind `DaysInYear` and `InLeapYear`, as 0 or 1. -/
def leapDays (y : Int) : Int :=
  if y % 4 ≠ 0 then 0 else if y % 100 ≠ 0 then 1 else if y % 400 ≠ 0 then 0 else 1

/-- The operation `DayWithinYear(t)`. -/
def DayWithinYear (t : Int) : Int := Day t - DayFromYear (YearFromTime t)

/-- Month number (0 to 11) of a day within a year with `l` leap days. -/
def monthOfDayInYear (l dwy : Int) : Int :=
  if dwy < 31 then 0
  else if dwy < 59 + l then 1
  else if dwy < 90 + l then 2
  else if dwy < 120 + l then 3
  else if dwy < 151 + l then 4
  else if dwy < 181 + l then 5
  else if dwy < 212 + l then 6
  else if dwy < 243 + l then 7
  else if dwy < 273 + l then 8
  else if dwy < 304 + l then 9
  else if dwy < 334 + l then 10
  else 11

/-- Day within the year of the first day of month `m` (0 to 11). -/
def monthStart (l m : Int) : Int :=
  if m = 0 then 0
  else if m = 1 then 31
  else if m = 2 then 59 + l
  else if m = 3 then 90 + l
  else if m = 4 then 120 + l
  else if m = 5 then 151 + l
  else if m = 6 then 181 + l
  else if m = 7 then 212 + l
  else if m = 8 then 243 + l
  else if m = 9 then 273 + l
  else if m = 10 then 304 + l
  else 334 + l

/-- The operation `MonthFromTime(t)`. -/
def MonthFromTime (t : Int) : Int :=
  monthOfDayInYear (leapDays (YearFromTime t)) (DayWithinYear t)

/-- The operation `DateFromTime(t)`: day of the month, from 1. -/
def DateFromTime (t : Int) : Int :=
  DayWithinYear t + 1 - monthStart (leapDays (YearFromTime t)) (MonthFromTime t)

/-- The operation `MakeDay(year, month, date)`: the day number of the first
day of the month `month mod 12` of the year `year + floor(month / 12)`, plus
`date - 1`. -/
def MakeDay (year month date : Int) : Int :=
  let ym := year + month / 12
  let mn := month % 12
  DayFromYear ym + monthStart (leapDays ym) mn + date - 1

/-- The operation `MakeTime(hour, min, sec, ms)`. -/
def MakeTime (hour min sec ms : Int) : Int :=
  hour * 3600000 + min * 60000 + sec * 1000 + ms

/-- The operation `MakeDate(day, time)`. -/
def MakeDate (day time : Int) : Int := day * msPerDay + time

/-- The operation `LocalTime(t)`. -/
def LocalTime (tza t : Int) : Int := t + tza

/-- The operation `UTC(t)`. -/
def UTC (tza t : Int) : Int := t - tza

/-- The method `getDate()` of a date with time value `t`. -/
def getDate (tza t : Int) : Int := DateFromTime (LocalTime tza t)

/-- The method `getMonth()` of a date with time value `t`. -/
def getMonth (tza t : Int) : Int := MonthFromTime (LocalTime tza t)

/-- The method `setHours(hour, min, sec, ms)`: the new time value. -/
def setHours (tza t hour min sec ms : Int) : Int :=
  let lt := LocalTime tza t
  UTC tza (MakeDate (Day lt) (MakeTime hour min sec ms))

/-- The method `setDate(date)`: the new time value. -/
def setDate (tza t date : Int) : Int :=
  let lt := LocalTime tza t
  UTC tza (MakeDate (MakeDay (YearFromTime lt) (MonthFromTime lt) date) (TimeWithinDay lt))

/-- The method `setMonth(month)`: the new time value. -/
def setMonth (tza t month : Int) : Int :=
  let lt := LocalTime tza t
  UTC tza (MakeDate (MakeDay (YearFromTime lt) month (DateFromTime lt)) (TimeWithinDay lt))

/-! ## controllers/analyticsController.js -/

/-- The object `{ startDate, endDate }` returned by `getDateRange`. -/
structure DateRange where
  startDate : Int
  endDate : Int
  deriving DecidableEq, Repr

/-- The helper `getDateRange(duration)`.  The clock is an input: `now` is
the time value that `new Date()` yields during the call, `tza` the offset of
local time. -/
def getDateRange (tza now : Int) (duration : String) : DateRange :=
  let startDate :=
    if duration = "day" then setHours tza now 0 0 0 0
    else if duration = "week" then setDate tza now (getDate tza now - 7)
    else if duration = "month" then setMonth tza now (getMonth tza now - 1)
    else if duration = "3month" then setMonth tza now (getMonth tza now - 3)
    else if duration = "6month" then setMonth tza now (getMonth tza now - 6)
    else 0
  { startDate := startDate, endDate := now }

/-- The `$match` stage shared by the order pipelines of the report: the
shop, status `Completed`, and `createdAt` between the two dates. -/
def matchesCompletedInRange (shopId : ObjectId) (range : DateRange) (o : Order) : Bool :=
  o.shop == shopId && o.orderStatus == "Completed" &&
    decide (range.startDate ≤ o.createdAt) && decide (o.createdAt ≤ range.endDate)

/-- Row produced by the `$group` stage of the revenue pipeline. -/
structure TotalStats where
  totalRevenue : Int
  totalOrders : Nat
  deriving DecidableEq, Repr

/-- The revenue pipeline: no row when no order matches, else one row. -/
def totalStatsAggregate (orders : List Order) (shopId : ObjectId) (range : DateRange) :
    List TotalStats :=
  match orders.filter (matchesCompletedInRange shopId range) with
  | [] => []
  | o :: rest =>
    [{ totalRevenue := ((o :: rest).map (fun x => x.totalAmount)).sum,
       totalOrders := (o :: rest).length }]

/-- The query `Order.distinct("user", { shop, user: { $ne: null } })`. -/
def allCustomerIds (orders : List Order) (shopId : ObjectId) : List ObjectId :=
  ((orders.filter (fun o => o.shop == shopId && o.user.isSome)).filterMap
    (fun o => o.user)).dedup

/-- The query `User.find({ _id: { $in: ids } })`. -/
def User.findIn (users : List User) (ids : List ObjectId) : List User :=
  users.filter (fun u => decide (u._id ∈ ids))

/-- The expression `parseFloat(averageRating[0]?.averageRating?.toFixed(1))
|| 0`: without a row or with a `null` average the argument of `parseFloat`
is `undefined`, the result `NaN`, and `NaN || 0` is 0; a number `v` gives
`v || 0`. -/
def averageRatingOrZero (stats : List RatingStats) : ℚ :=
  match stats.head?.bind (fun row => row.averageRating) with
  | none => 0
  | some avg => if parseFloatToFixed1 avg = 0 then 0 else parseFloatToFixed1 avg

/-- The report object `analyticsData`, restricted to the fields the
properties below are about (totals, average rating and customers). -/
structure AnalyticsData where
  totalRevenue : Int
  totalOrders : Nat
  averageRating : ℚ
  totalCustomers : Nat
  allCustomers : List User
  deriving DecidableEq, Repr

/-- Answer of `getShopAnalytics` together with the names of the report
queries it issued after looking the shop up. -/
structure AnalyticsResponse where
  status : Nat
  success : Bool
  message : Option String
  data : Option AnalyticsData
  queries : List String
  deriving DecidableEq, Repr

/-- The report queries of `getShopAnalytics`, in source order: the six
members of `Promise.all`, then the customer lookup. -/
def reportQueries : List String :=
  ["totalStats", "topSellingItems", "tablePerformance", "repeatCustomersAgg",
   "averageRating", "allCustomerIds", "allCustomers"]

/-- The handler `getShopAnalytics`
(GET /api/vendor/shops/:shopId/analytics?duration=...).  `duration` is
`req.query.duration`, `none` when the query does not carry it; the
destructuring default then makes it `"day"`.  A shop query that rejects is
answered by the `catch` branch. -/
def getShopAnalytics (isObjectId : String → Bool) (tza now : Int) (shops : List Shop)
    (orders : List Order) (users : List User) (reviews : List Review) (shopId : String)
    (duration : Option String) (vendor : Vendor) : AnalyticsResponse :=
  let denied : AnalyticsResponse :=
    { status := 403, success := false, message := some "Access denied.",
      data := none, queries := [] }
  match Shop.findById isObjectId shops shopId with
  | Lookup.castError =>
    { status := 500, success := false, message := some "Server Error",
      data := none, queries := [] }
  | Lookup.missing => denied
  | Lookup.found shop =>
    if shop.owner ≠ vendor._id then denied
    else
      let range := getDateRange tza now (duration.getD "day")
      let totalStats := totalStatsAggregate orders shopId range
      let averageRating := ratingAggregate reviews shopId
      let allCustomers := User.findIn users (allCustomerIds orders shopId)
      { status := 200, success := true, message := none,
        data := some
          { totalRevenue := (totalStats.head?.map (fun r => r.totalRevenue)).getD 0,
            totalOrders := (totalStats.head?.map (fun r => r.totalOrders)).getD 0,
            averageRating := averageRatingOrZero averageRating,
            totalCustomers := allCustomers.length,
            allCustomers := allCustomers },
        queries := reportQueries }

/-! ## Sample documents used by the concrete evaluations -/

/-- A hexadecimal digit. -/
def isHexDigit (c : Char) : Bool :=
  ('0' ≤ c && c ≤ '9') || ('a' ≤ c && c ≤ 'f') || ('A' ≤ c && c ≤ 'F')

/-- The strings of 24 hexadecimal digits, the string form of an `ObjectId`. -/
def isHex24 (s : String) : Bool := s.data.length == 24 && s.data.all isHexDigit

/-- Id of the shop `S`. -/
def idS : ObjectId := "64b000000000000000000001"

/-- Id of the vendor `V1`. -/
def idV1 : ObjectId := "64a000000000000000000001"

/-- Id of the vendor `V2`. -/
def idV2 : ObjectId := "64a000000000000000000002"

/-- Id of the administrator. -/
def idAdmin : ObjectId := "64a00000000000000000000a"

/-- Id of the manager of the food court `FC1`. -/
def idManager : ObjectId := "64a00000000000000000000b"

/-- Id of the food court `FC1`. -/
def idFC1 : ObjectId := "64f000000000000000000001"

/-- Id of the user `U1`. -/
def idU1 : ObjectId := "64c000000000000000000001"

/-- Id of the user `U2`. -/
def idU2 : ObjectId := "64c000000000000000000002"

/-- Id of the order `ORD1`. -/
def idOrd1 : ObjectId := "64d000000000000000000001"

/-- Id of the guest order. -/
def idGuest : ObjectId := "64d000000000000000000002"

/-- A path parameter that is not the string form of an `ObjectId`. -/
def malformedId : String := "not-an-objectid"

/-- The shop of the scenario of the specification: standalone, owned by `V1`. -/
def shopS : Shop := { _id := idS, owner := idV1, foodCourt := none }

/-- The shop `S` as a member of the food court `FC1`. -/
def shopInFoodCourt : Shop := { _id := idS, owner := idV1, foodCourt := some idFC1 }

/-- The manager of the food court `FC1`. -/
def managerOfFC1 : Vendor :=
  { _id := idManager, role := "manager", managesFoodCourt := some idFC1 }

/-- A vendor with role `owner` and no managed food court. -/
def plainVendor (id : ObjectId) : Vendor :=
  { _id := id, role := "owner", managesFoodCourt := none }

/-- A table of shop `S` with a numeric table number and a string identifier. -/
def tableOfS (n : Int) (qr : String) : Table :=
  { shop := idS, tableNumber := JsVal.num n, qrIdentifier := JsVal.str qr }

/-- An administrator. -/
def adminVendor : Vendor := { _id := idAdmin, role := "admin", managesFoodCourt := none }

/-- A schema validator that requires both a table number and an identifier. -/
def requireBoth (t : Table) : Bool := t.tableNumber.truthy && t.qrIdentifier.truthy

/-- A schema validator that accepts every document. -/
def acceptAll (_ : Table) : Bool := true

/-- A body holding a batch of one element, the empty object, and no single pair. -/
def batchOfEmptyObject : TableBody :=
  { tableNumber := JsVal.undefined, qrIdentifier := JsVal.undefined,
    tableNumbers := JsVal.arr [JsVal.obj []] }

/-- A body holding the single pair `(0, "qr0")` and no batch. -/
def pairWithZero : TableBody :=
  { tableNumber := JsVal.num 0, qrIdentifier := JsVal.str "qr0",
    tableNumbers := JsVal.undefined }

/-- A body holding the single pair `(7, "qr7")` and a `tableNumbers` that is
a string, not an array. -/
def pairWithStringBatch : TableBody :=
  { tableNumber := JsVal.num 7, qrIdentifier := JsVal.str "qr7",
    tableNumbers := JsVal.str "1,2,3" }

/-- A completed guest order of shop `S`: it has no `user`. -/
def guestOrder : Order :=
  { _id := idGuest, shop := idS, user := none, orderStatus := "Completed",
    totalAmount := 120, createdAt := 1700000000000 }

/-- The order of the review scenario: `ORD1`, placed by `U1`, completed. -/
def ord1 : Order :=
  { _id := idOrd1, shop := idS, user := some idU1, orderStatus := "Completed",
    totalAmount := 250, createdAt := 1700000000000 }

/-- A review schema validator that accepts every document. -/
def acceptAnyReview (_ : Review) : Bool := true

/-- The review request of the scenario, posted by `userId`. -/
def reviewBy (userId : ObjectId) : ReviewRequest :=
  { orderId := idOrd1, userId := userId, rating := JsVal.num 5, comment := JsVal.str "great" }

/-- The customers as the specification words them: the user profiles whose
user has at least one order of the shop with status `Completed` and
`createdAt` within the date range. -/
def customersCompletedInRange (orders : List Order) (users : List User)
    (shopId : ObjectId) (range : DateRange) : List User :=
  users.filter (fun u =>
    orders.any (fun o => matchesCompletedInRange shopId range o && o.user == some u._id))

/-- The instant 2023-11-14T22:13:20Z. -/
def sampleNow : Int := 1700000000000

/-- Orders of shop `S`: one of user `U1` placed two days before `sampleNow`
and still pending, one of user `U2` completed ten days before `sampleNow`. -/
def sampleOrders : List Order :=
  [{ _id := "64d000000000000000000011", shop := idS, user := some idU1,
     orderStatus := "Pending", totalAmount := 100,
     createdAt := 1700000000000 - 2 * 86400000 },
   { _id := "64d000000000000000000012", shop := idS, user := some idU2,
     orderStatus := "Completed", totalAmount := 200,
     createdAt := 1700000000000 - 10 * 86400000 }]

/-- The profiles of `U1` and `U2`. -/
def sampleUsers : List User :=
  [{ _id := idU1, name := "Asha", email := "asha@example.com", phone := "1",
     createdAt := 1690000000000 },
   { _id := idU2, name := "Ravi", email := "ravi@example.com", phone := "2",
     createdAt := 1695000000000 }]

/-! ## Calendar notions used to state the date-range properties -/

/-- Number of days of month `m` (0 to 11) in a year with `l` leap days. -/
def daysInMonth (l m : Int) : Int :=
  if m = 1 then 28 + l
  else if m = 3 ∨ m = 5 ∨ m = 8 ∨ m = 10 then 30
  else 31

/-- Index of the local calendar month of a time value: twelve times the
year plus the month number. -/
def calendarMonthIndex (tza t : Int) : Int :=
  YearFromTime (LocalTime tza t) * 12 + MonthFromTime (LocalTime tza t)

/-- Number of days of the calendar month that lies `k` months before the
local month of `now`. -/
def monthsBackLength (tza now k : Int) : Int :=
  daysInMonth
    (leapDays (YearFromTime (LocalTime tza now) + (getMonth tza now - k) / 12))
    ((getMonth tza now - k) % 12)

/-- The instant 2023-05-31T12:00:00Z. -/
def may31Noon : Int := 1685534400000

/-- The instant 2023-05-01T12:00:00Z. -/
def may1Noon : Int := 1682942400000

/-- Orders of shop `S` of the `week` scenario: both completed, one ten days
and one two days before `sampleNow`. -/
def weekOrders : List Order :=
  [{ _id := "64d000000000000000000021", shop := idS, user := some idU1,
     orderStatus := "Completed", totalAmount := 300,
     createdAt := 1700000000000 - 10 * 86400000 },
   { _id := "64d000000000000000000022", shop := idS, user := some idU2,
     orderStatus := "Completed", totalAmount := 450,
     createdAt := 1700000000000 - 2 * 86400000 }]

/-! ## Notions used to state the rating properties -/

/-- The exact mean of integer ratings. -/
def exactMean (ratings : List Nat) : ℚ := (ratings.sum : ℚ) / (ratings.length : ℚ)

/-- A rational rounded to one decimal place, a tie going up. -/
def roundedToOneDecimal (q : ℚ) : ℚ := ((⌊10 * q + 1 / 2⌋ : Int) : ℚ) / 10

/-- A review of shop `S` with the given rating. -/
def ratedReview (n : Nat) : Review :=
  { rating := JsVal.num (n : Int), comment := JsVal.str "", user := idU1, shop := idS,
    order := idOrd1 }

/-- Twenty ratings that sum to 87: seven fives and thirteen fours. -/
def ratings87 : List Nat := List.replicate 7 5 ++ List.replicate 13 4

/-- A timestamp assignment for the sample reviews. -/
def sameInstant (_ : Review) : Int := 1700000000000

/-! # Properties -/

/-! ## Authorization policy -/

theorem permissionRules_fst (shop : Shop) (actor : Vendor) :
    (permissionRules shop actor).1 = true ↔
      (shop.foodCourt.isSome ∧
        (actor.role = "admin" ∨ actor.managesFoodCourt = shop.foodCourt)) ∨
      (shop.foodCourt = none ∧ (actor.role = "admin" ∨ actor._id = shop.owner)) := by
  unfold permissionRules
  by_cases hr : actor.role = "admin"
  · cases hfc : shop.foodCourt <;> simp [hr]
  · cases hfc : shop.foodCourt with
    | none =>
      by_cases ho : shop.owner = actor._id
      · simp [hr, ho]
      · have ho' : ¬ actor._id = shop.owner := fun h => ho h.symm
        simp [hr, ho, ho']
    | some fc =>
      cases hm : actor.managesFoodCourt with
      | none => simp [hr]
      | some m =>
        by_cases hmf : m = fc
        · simp [hr, hmf]
        · simp [hr, hmf]

theorem permissionRules_snd (shop : Shop) (actor : Vendor)
    (hden : (permissionRules shop actor).1 = false) :
    (permissionRules shop actor).2 =
      if shop.foodCourt.isSome then foodCourtDenied else genericDenied := by
  unfold permissionRules at hden ⊢
  by_cases hr : actor.role = "admin"
  · simp [hr] at hden
  · cases hfc : shop.foodCourt with
    | none =>
      by_cases ho : shop.owner = actor._id
      · simp [hr, hfc, ho] at hden
      · simp [hr, ho]
    | some fc =>
      cases hm : actor.managesFoodCourt with
      | none => simp [hr]
      | some m =>
        by_cases hmf : m = fc
        · simp [hr, hfc, hm, hmf] at hden
        · simp [hr, hmf]

/-- A `findById` query rejects exactly on a parameter that does not cast. -/
theorem Shop.findById_castError (isObjectId : String → Bool) (shops : List Shop)
    (shopId : String) :
    Shop.findById isObjectId shops shopId = Lookup.castError ↔ isObjectId shopId = false := by
  unfold Shop.findById
  cases hid : isObjectId shopId
  · simp
  · cases hf : shops.find? (fun s => s._id == shopId) <;> simp

theorem checkTablePermissions_found (isObjectId : String → Bool) (shops : List Shop)
    (shopId : String) (shop : Shop) (actor : Vendor)
    (hfound : Shop.findById isObjectId shops shopId = Lookup.found shop) :
    checkTablePermissions isObjectId shops shopId actor =
      some (if (permissionRules shop actor).1 then
        { authorized := true, status := none, message := none, shop := some shop }
      else
        { authorized := false, status := some 403,
          message := some (permissionRules shop actor).2, shop := none }) := by
  unfold checkTablePermissions
  rw [hfound]
  cases h : (permissionRules shop actor).1 <;> simp [h]

theorem checkTablePermissions_missing (isObjectId : String → Bool) (shops : List Shop)
    (shopId : String) (actor : Vendor)
    (hmiss : Shop.findById isObjectId shops shopId = Lookup.missing) :
    checkTablePermissions isObjectId shops shopId actor =
      some { authorized := false, status := some 404, message := some "Shop not found",
             shop := none } := by
  unfold checkTablePermissions
  rw [hmiss]

theorem checkTablePermissions_castError (isObjectId : String → Bool) (shops : List Shop)
    (shopId : String) (actor : Vendor) (hid : isObjectId shopId = false) :
    checkTablePermissions isObjectId shops shopId actor = none := by
  unfold checkTablePermissions
  rw [(Shop.findById_castError isObjectId shops shopId).mpr hid]

/-- C1. For an existing shop, `checkTablePermissions` resolves, and it
authorizes the actor exactly when the shop belongs to a food court and the
actor is admin or the manager of that food court, or the shop is standalone
and the actor is admin or its owner.  In particular a non-admin who does not
manage the shop's food court is denied on a food-court shop (its owner
included), and a non-admin who is not the owner is denied on a standalone
shop (a manager of some food court included). -/
theorem checkTablePermissions_authorized_iff (isObjectId : String → Bool)
    (shops : List Shop) (shopId : String) (shop : Shop) (actor : Vendor)
    (hfound : Shop.findById isObjectId shops shopId = Lookup.found shop) :
    ∃ r, checkTablePermissions isObjectId shops shopId actor = some r ∧
      (r.authorized = true ↔
        (shop.foodCourt.isSome ∧
          (actor.role = "admin" ∨ actor.managesFoodCourt = shop.foodCourt)) ∨
        (shop.foodCourt = none ∧ (actor.role = "admin" ∨ actor._id = shop.owner))) ∧
      (shop.foodCourt.isSome → actor.role ≠ "admin" →
        actor.managesFoodCourt ≠ shop.foodCourt → r.authorized = false) ∧
      (shop.foodCourt = none → actor.role ≠ "admin" → actor._id ≠ shop.owner →
        r.authorized = false) := by
  refine ⟨_, checkTablePermissions_found isObjectId shops shopId shop actor hfound, ?_⟩
  have hauth : (if (permissionRules shop actor).1 then
        ({ authorized := true, status := none, message := none, shop := some shop } : AuthCheck)
      else
        { authorized := false, status := some 403,
          message := some (permissionRules shop actor).2, shop := none }).authorized =
      (permissionRules shop actor).1 := by
    cases h : (permissionRules shop actor).1 <;> simp
  rw [hauth]
  refine ⟨permissionRules_fst shop actor, ?_, ?_⟩
  · intro hfc hr hm
    cases h : (permissionRules shop actor).1 with
    | false => rfl
    | true =>
      rcases (permissionRules_fst shop actor).1 h with ⟨_, h1 | h1⟩ | ⟨h0, _⟩
      · exact absurd h1 hr
      · exact absurd h1 hm
      · simp [h0] at hfc
  · intro hfc hr ho
    cases h : (permissionRules shop actor).1 with
    | false => rfl
    | true =>
      rcases (permissionRules_fst shop actor).1 h with ⟨h0, _⟩ | ⟨_, h1 | h1⟩
      · simp [hfc] at h0
      · exact absurd h1 hr
      · exact absurd h1 ho

/-- Witness for C1: the owner of a food-court shop, who is neither admin nor
the manager of that food court, is denied. -/
theorem checkTablePermissions_authorized_iff_witness :
    Shop.findById isHex24 [shopInFoodCourt] idS = Lookup.found shopInFoodCourt ∧
    ∃ r, checkTablePermissions isHex24 [shopInFoodCourt] idS (plainVendor idV1) = some r ∧
      r.authorized = false := by
  have hfound : Shop.findById isHex24 [shopInFoodCourt] idS = Lookup.found shopInFoodCourt := by
    decide
  obtain ⟨r, hr, _, hden, _⟩ := checkTablePermissions_authorized_iff isHex24
    [shopInFoodCourt] idS shopInFoodCourt (plainVendor idV1) hfound
  exact ⟨hfound, r, hr, hden (by decide) (by decide) (by decide)⟩

/-- C5, as amended.  For a shop id that casts to an `ObjectId`,
`checkTablePermissions` resolves: to 404 `Shop not found` when no shop has
the id, whoever the actor is; for an existing shop and a denied actor to 403
with the food-court message exactly when the shop has a food court and with
the generic message exactly when it is standalone; for an authorized actor
to the shop, with neither status nor message. -/
theorem checkTablePermissions_failure_report (isObjectId : String → Bool)
    (shops : List Shop) (shopId : String) (actor : Vendor)
    (hid : isObjectId shopId = true) :
    (∃ r, checkTablePermissions isObjectId shops shopId actor = some r) ∧
    (Shop.findById isObjectId shops shopId = Lookup.missing →
      checkTablePermissions isObjectId shops shopId actor =
        some { authorized := false, status := some 404, message := some "Shop not found",
               shop := none }) ∧
    (∀ shop, Shop.findById isObjectId shops shopId = Lookup.found shop →
      ∃ r, checkTablePermissions isObjectId shops shopId actor = some r ∧
        (r.authorized = false →
          r.status = some 403 ∧ r.shop = none ∧
          (r.message =
              some "Only the Admin or Food Court Manager can manage tables for this shop." ↔
            shop.foodCourt.isSome) ∧
          (r.message = some "You do not have permission to manage tables for this shop." ↔
            shop.foodCourt = none)) ∧
        (r.authorized = true →
          r = { authorized := true, status := none, message := none, shop := some shop })) ∧
    (Shop.findById isObjectId shops shopId = Lookup.missing ∨
      ∃ shop, Shop.findById isObjectId shops shopId = Lookup.found shop) := by
  have hfoundLemma : ∀ shop, Shop.findById isObjectId shops shopId = Lookup.found shop →
      ∃ r, checkTablePermissions isObjectId shops shopId actor = some r ∧
        (r.authorized = false →
          r.status = some 403 ∧ r.shop = none ∧
          (r.message =
              some "Only the Admin or Food Court Manager can manage tables for this shop." ↔
            shop.foodCourt.isSome) ∧
          (r.message = some "You do not have permission to manage tables for this shop." ↔
            shop.foodCourt = none)) ∧
        (r.authorized = true →
          r = { authorized := true, status := none, message := none, shop := some shop }) := by
    intro shop hfound
    refine ⟨_, checkTablePermissions_found isObjectId shops shopId shop actor hfound, ?_, ?_⟩
    · intro hden
      cases hp : (permissionRules shop actor).1 with
      | true => simp [hp] at hden
      | false =>
        have hmsg := permissionRules_snd shop actor hp
        cases hfc : shop.foodCourt with
        | none => simp [hmsg, hfc, genericDenied]
        | some fc => simp [hmsg, hfc, foodCourtDenied]
    · intro hauth
      cases hp : (permissionRules shop actor).1 with
      | true => simp
      | false => simp [hp] at hauth
  cases hl : Shop.findById isObjectId shops shopId with
  | castError =>
    have := (Shop.findById_castError isObjectId shops shopId).mp hl
    rw [hid] at this
    cases this
  | missing =>
    refine ⟨⟨_, checkTablePermissions_missing isObjectId shops shopId actor hl⟩,
      fun _ => checkTablePermissions_missing isObjectId shops shopId actor hl, ?_, Or.inl rfl⟩
    intro shop h
    cases h
  | found shop =>
    obtain ⟨r, hr, h1, h2⟩ := hfoundLemma shop hl
    refine ⟨⟨r, hr⟩, (fun h => by cases h), ?_, Or.inr ⟨shop, rfl⟩⟩
    intro shop' h'
    cases h'
    exact ⟨r, hr, h1, h2⟩

/-- Witness for C5: an administrator asking for a well-formed id that no
shop has gets 404; a stranger gets the generic message on the standalone
shop `S`. -/
theorem checkTablePermissions_failure_report_witness :
    isHex24 idFC1 = true ∧
    Shop.findById isHex24 [shopS] idFC1 = Lookup.missing ∧
    checkTablePermissions isHex24 [shopS] idFC1 adminVendor =
      some { authorized := false, status := some 404, message := some "Shop not found",
             shop := none } ∧
    ∃ r, checkTablePermissions isHex24 [shopS] idS (plainVendor idV2) = some r ∧
      r.message = some "You do not have permission to manage tables for this shop." := by
  have h1 : isHex24 idFC1 = true := by decide
  have h2 : Shop.findById isHex24 [shopS] idFC1 = Lookup.missing := by decide
  have h3 : isHex24 idS = true := by decide
  have h4 : Shop.findById isHex24 [shopS] idS = Lookup.found shopS := by decide
  obtain ⟨r, hr, hden, _⟩ :=
    (checkTablePermissions_failure_report isHex24 [shopS] idS (plainVendor idV2) h3).2.2.1
      shopS h4
  have hauth : r.authorized = false := by
    have : checkTablePermissions isHex24 [shopS] idS (plainVendor idV2) =
        some { authorized := false, status := some 403,
               message := some genericDenied, shop := none } := by decide
    rw [this] at hr
    cases hr
    rfl
  exact ⟨h1, h2,
    (checkTablePermissions_failure_report isHex24 [shopS] idFC1 adminVendor h1).2.1 h2,
    r, hr, ((hden hauth).2.2.2).2 (by decide)⟩

/-- C5, counterexample.  No shop has the id `not-an-objectid`, yet an
administrator asking for it does not get the 404 object: the shop query
rejects with a cast error, `checkTablePermissions` rejects with it, and the
handler that called it answers 500. -/
theorem checkTablePermissions_malformed_id :
    [shopS].find? (fun s => s._id == malformedId) = none ∧
    isHex24 malformedId = false ∧
    checkTablePermissions isHex24 [shopS] malformedId adminVendor = none ∧
    (getTablesForShop isHex24 [shopS] [] malformedId adminVendor).1.status = 500 := by
  refine ⟨by decide, by decide, by decide, by decide⟩

/-! ## Table controller -/

theorem tableDenied_status (isObjectId : String → Bool) (shops : List Shop)
    (shopId : String) (vendor : Vendor) (r : AuthCheck)
    (hcheck : checkTablePermissions isObjectId shops shopId vendor = some r)
    (hden : r.authorized = false) :
    (tableDenied r).status = 403 ∨ (tableDenied r).status = 404 := by
  cases hfound : Shop.findById isObjectId shops shopId with
  | castError =>
    simp [checkTablePermissions, hfound] at hcheck
  | missing =>
    right
    rw [checkTablePermissions_missing isObjectId shops shopId vendor hfound] at hcheck
    cases hcheck
    rfl
  | found shop =>
    left
    rw [checkTablePermissions_found isObjectId shops shopId shop vendor hfound] at hcheck
    cases hp : (permissionRules shop vendor).1 with
    | true =>
      rw [hp] at hcheck
      cases hcheck
      simp at hden
    | false =>
      rw [hp] at hcheck
      cases hcheck
      rfl

/-- The two table operations that call `checkTablePermissions` are gated by
it: for a denied actor `createTableForShop` (whatever the body and the
validator) and `getTablesForShop` answer 403 or 404, carry no data and leave
the tables as they are. -/
theorem create_and_get_gated (isObjectId : String → Bool) (validate : Table → Bool)
    (shops : List Shop) (tables : List Table) (shopId : String) (vendor : Vendor)
    (body : TableBody) (r : AuthCheck)
    (hcheck : checkTablePermissions isObjectId shops shopId vendor = some r)
    (hden : r.authorized = false) :
    (((createTableForShop isObjectId validate shops tables shopId vendor body).1.status = 403 ∨
        (createTableForShop isObjectId validate shops tables shopId vendor body).1.status
          = 404) ∧
      (createTableForShop isObjectId validate shops tables shopId vendor body).1.data = none ∧
      (createTableForShop isObjectId validate shops tables shopId vendor body).2 = tables) ∧
    (((getTablesForShop isObjectId shops tables shopId vendor).1.status = 403 ∨
        (getTablesForShop isObjectId shops tables shopId vendor).1.status = 404) ∧
      (getTablesForShop isObjectId shops tables shopId vendor).1.data = none ∧
      (getTablesForShop isObjectId shops tables shopId vendor).2 = tables) := by
  have hs := tableDenied_status isObjectId shops shopId vendor r hcheck hden
  have hc : createTableForShop isObjectId validate shops tables shopId vendor body =
      (tableDenied r, tables) := by
    simp [createTableForShop, hcheck, hden]
  have hg : getTablesForShop isObjectId shops tables shopId vendor =
      (tableDenied r, tables) := by
    simp [getTablesForShop, hcheck, hden]
  rw [hc, hg]
  exact ⟨⟨hs, rfl, rfl⟩, ⟨hs, rfl, rfl⟩⟩

/-- C3, the code at the failing input.  Shop `S` is standalone and owned by
`V1`; vendor `V2` is denied by `checkTablePermissions` (403), yet
`deleteTableForShop`, which takes no actor at all, answers 200 and removes
the table `qrA` of `S`. -/
theorem deleteTableForShop_not_gated :
    checkTablePermissions isHex24 [shopS] idS (plainVendor idV2) =
      some { authorized := false, status := some 403, message := some genericDenied,
             shop := none } ∧
    (deleteTableForShop [tableOfS 1 "qrA", tableOfS 2 "qrB"] idS "qrA").1.status = 200 ∧
    (deleteTableForShop [tableOfS 1 "qrA", tableOfS 2 "qrB"] idS "qrA").2 =
      [tableOfS 2 "qrB"] := by
  refine ⟨by decide, rfl, ?_⟩
  simp [deleteTableForShop, Table.findOneAndDelete, tableOfS, JsVal.eqStr, List.eraseP]

theorem tablesToCreate_spec (shopId : ObjectId) :
    ∀ (items : List JsVal) (docs : List Table), tablesToCreate shopId items = some docs →
      List.Forall₂ (fun t d => d.shop = shopId ∧ t.getProp "tableNumber" = some d.tableNumber ∧
        t.getProp "qrIdentifier" = some d.qrIdentifier) items docs := by
  intro items
  induction items with
  | nil =>
    intro docs h
    simp [tablesToCreate] at h
    subst h
    exact List.Forall₂.nil
  | cons t rest ih =>
    intro docs h
    unfold tablesToCreate at h
    cases hn : t.getProp "tableNumber" with
    | none => simp [hn] at h
    | some n =>
      cases hq : t.getProp "qrIdentifier" with
      | none => simp [hn, hq] at h
      | some q =>
        cases hr : tablesToCreate shopId rest with
        | none => simp [hn, hq, hr] at h
        | some ts =>
          simp [hn, hq, hr] at h
          subst h
          exact List.Forall₂.cons ⟨rfl, hn, hq⟩ (ih ts hr)

theorem createTableForShop_batch (isObjectId : String → Bool) (validate : Table → Bool)
    (shops : List Shop) (tables : List Table) (shopId : String) (vendor : Vendor)
    (body : TableBody) (items : List JsVal) (r : AuthCheck)
    (hcheck : checkTablePermissions isObjectId shops shopId vendor = some r)
    (hauth : r.authorized = true)
    (harr : body.tableNumbers = JsVal.arr items) :
    createTableForShop isObjectId validate shops tables shopId vendor body =
      match tablesToCreate shopId items with
      | none => (tableServerError "Server Error" (some false), tables)
      | some docs =>
        if docs.all validate then (tablesCreated docs, tables ++ docs)
        else (tableServerError "Server Error" (some false), tables) := by
  unfold createTableForShop
  simp only [hcheck, hauth, harr]
  cases hb : tablesToCreate shopId items with
  | none => simp
  | some docs =>
    by_cases hv : docs.all validate = true
    · simp [Table.insertMany, hv]
    · simp [Table.insertMany, hv]

theorem createTableForShop_single (isObjectId : String → Bool) (validate : Table → Bool)
    (shops : List Shop) (tables : List Table) (shopId : String) (vendor : Vendor)
    (body : TableBody) (r : AuthCheck)
    (hcheck : checkTablePermissions isObjectId shops shopId vendor = some r)
    (hauth : r.authorized = true)
    (harr : body.tableNumbers.isArray = false) :
    createTableForShop isObjectId validate shops tables shopId vendor body =
      if body.tableNumber.truthy && body.qrIdentifier.truthy then
        if validate { shop := shopId, tableNumber := body.tableNumber,
                      qrIdentifier := body.qrIdentifier } then
          (tablesCreated [{ shop := shopId, tableNumber := body.tableNumber,
                            qrIdentifier := body.qrIdentifier }],
           tables ++ [{ shop := shopId, tableNumber := body.tableNumber,
                        qrIdentifier := body.qrIdentifier }])
        else (tableServerError "Server Error" (some false), tables)
      else
        ({ status := 400, success := some false,
           message := some "A tableNumber and qrIdentifier are required.",
           count := none, data := none }, tables) := by
  unfold createTableForShop
  simp only [hcheck, hauth]
  cases hb : body.tableNumbers with
  | arr items => simp [hb, JsVal.isArray] at harr
  | undefined | null | bool b | num n | str s | obj f =>
    by_cases ht : (body.tableNumber.truthy && body.qrIdentifier.truthy) = true
    · cases hv : validate ⟨shopId, body.tableNumber, body.qrIdentifier⟩ <;>
        simp [Table.insertMany, ht, hv]
    · simp [ht]

/-- C7, as amended.  For an actor authorized by `checkTablePermissions`,
`createTableForShop` answers 400 exactly when `tableNumbers` is not an array
and `tableNumber` or `qrIdentifier` is falsy (absent, `null`, `0`, the empty
string), and then inserts nothing.  When `tableNumbers` is an array the batch
path is taken, whatever its elements and whatever single pair comes with it,
and the answer is 201 exactly when every element can be read and the model
accepts every record; otherwise the answer is 201 exactly when both fields
are truthy and the model accepts the record.  Whenever the answer is 201 the
records in `data` are appended to the collection, the message reports their
number, and they are one record per array element (or the one pair), each
with the path's shop id and the element's `tableNumber` and `qrIdentifier`.
No other status than 201, 400 and 500 is answered. -/
theorem createTableForShop_body_handling (isObjectId : String → Bool)
    (validate : Table → Bool) (shops : List Shop) (tables : List Table) (shopId : String)
    (vendor : Vendor) (body : TableBody) (r : AuthCheck)
    (hcheck : checkTablePermissions isObjectId shops shopId vendor = some r)
    (hauth : r.authorized = true) :
    ((createTableForShop isObjectId validate shops tables shopId vendor body).1.status = 400 ↔
      body.tableNumbers.isArray = false ∧
        (body.tableNumber.truthy && body.qrIdentifier.truthy) = false) ∧
    ((createTableForShop isObjectId validate shops tables shopId vendor body).1.status = 400 →
      (createTableForShop isObjectId validate shops tables shopId vendor body).2 = tables ∧
      (createTableForShop isObjectId validate shops tables shopId vendor body).1.data = none) ∧
    (∀ items, body.tableNumbers = JsVal.arr items →
      ((createTableForShop isObjectId validate shops tables shopId vendor body).1.status = 201 ↔
        ∃ docs, tablesToCreate shopId items = some docs ∧ docs.all validate = true)) ∧
    (body.tableNumbers.isArray = false →
      ((createTableForShop isObjectId validate shops tables shopId vendor body).1.status = 201 ↔
        (body.tableNumber.truthy && body.qrIdentifier.truthy) = true ∧
          validate ⟨shopId, body.tableNumber, body.qrIdentifier⟩ = true)) ∧
    ((createTableForShop isObjectId validate shops tables shopId vendor body).1.status = 201 →
      ∃ docs,
        (createTableForShop isObjectId validate shops tables shopId vendor body).1.data = some docs ∧
        (createTableForShop isObjectId validate shops tables shopId vendor body).2 = tables ++ docs ∧
        (createTableForShop isObjectId validate shops tables shopId vendor body).1.message =
          some (toString docs.length ++ " QR code(s) created successfully.") ∧
        (∀ items, body.tableNumbers = JsVal.arr items →
          List.Forall₂ (fun t d => d.shop = shopId ∧
            t.getProp "tableNumber" = some d.tableNumber ∧
            t.getProp "qrIdentifier" = some d.qrIdentifier) items docs) ∧
        (body.tableNumbers.isArray = false →
          docs = [⟨shopId, body.tableNumber, body.qrIdentifier⟩])) ∧
    ((createTableForShop isObjectId validate shops tables shopId vendor body).1.status = 201 ∨
      (createTableForShop isObjectId validate shops tables shopId vendor body).1.status = 400 ∨
      (createTableForShop isObjectId validate shops tables shopId vendor body).1.status = 500) := by
  cases harr : body.tableNumbers.isArray with
  | true =>
    obtain ⟨items, hitems⟩ : ∃ items, body.tableNumbers = JsVal.arr items := by
      cases hb : body.tableNumbers <;> simp [hb, JsVal.isArray] at harr
      exact ⟨_, rfl⟩
    rw [createTableForShop_batch isObjectId validate shops tables shopId vendor body items r
      hcheck hauth hitems]
    cases hb : tablesToCreate shopId items with
    | none =>
      simp [tableServerError, hitems, hb, harr]
    | some docs =>
      have hspec := tablesToCreate_spec shopId items docs hb
      cases hv : docs.all validate with
      | false =>
        simp only [hb, hv, Bool.false_eq_true, if_false]
        refine ⟨by simp [tableServerError, harr], by simp [tableServerError], ?_,
          by simp [harr], by simp [tableServerError], by simp [tableServerError]⟩
        intro items' h'
        rw [hitems] at h'
        cases h'
        constructor
        · intro h
          simp [tableServerError] at h
        · rintro ⟨d, hd, hall⟩
          rw [hb] at hd
          cases hd
          rw [hv] at hall
          cases hall
      | true =>
        simp only [hb, hv, if_true]
        refine ⟨by simp [tablesCreated, harr], by simp [tablesCreated], ?_,
          by simp [harr], ?_, by simp [tablesCreated]⟩
        · intro items' h'
          rw [hitems] at h'
          cases h'
          exact ⟨fun _ => ⟨docs, hb, hv⟩, fun _ => rfl⟩
        · intro _
          refine ⟨docs, rfl, rfl, rfl, ?_, by simp [harr]⟩
          intro items' h'
          rw [hitems] at h'
          cases h'
          exact hspec
  | false =>
    rw [createTableForShop_single isObjectId validate shops tables shopId vendor body r hcheck
      hauth harr]
    have hnot : ∀ items, body.tableNumbers ≠ JsVal.arr items := by
      intro items h
      simp [h, JsVal.isArray] at harr
    cases ht : (body.tableNumber.truthy && body.qrIdentifier.truthy) with
    | false =>
      simp only [Bool.false_eq_true, if_false]
      refine ⟨by simp, by simp, ?_, by simp, by simp, by simp⟩
      intro items h
      exact absurd h (hnot items)
    | true =>
      cases hv : validate ⟨shopId, body.tableNumber, body.qrIdentifier⟩ with
      | false =>
        simp only [Bool.false_eq_true, if_false, if_true]
        refine ⟨by simp [tableServerError], by simp [tableServerError], ?_,
          by simp [tableServerError], by simp [tableServerError], by simp [tableServerError]⟩
        intro items h
        exact absurd h (hnot items)
      | true =>
        simp only [if_true]
        refine ⟨by simp [tablesCreated], by simp [tablesCreated], ?_,
          by simp [tablesCreated], ?_, by simp [tablesCreated]⟩
        · intro items h
          exact absurd h (hnot items)
        · intro _
          refine ⟨_, rfl, rfl, rfl, ?_, fun _ => rfl⟩
          intro items h
          exact absurd h (hnot items)

/-- Witness for C7: an administrator posting the single pair `(7, "qr7")`
together with a `tableNumbers` that is a string gets 201 and exactly that one
table inserted. -/
theorem createTableForShop_body_handling_witness :
    checkTablePermissions isHex24 [shopS] idS adminVendor =
      some { authorized := true, status := none, message := none, shop := some shopS } ∧
    (createTableForShop isHex24 requireBoth [shopS] [] idS adminVendor
      pairWithStringBatch).1.status = 201 ∧
    ∃ docs,
      (createTableForShop isHex24 requireBoth [shopS] [] idS adminVendor
        pairWithStringBatch).1.data = some docs ∧
      docs = [⟨idS, JsVal.num 7, JsVal.str "qr7"⟩] := by
  have hcheck : checkTablePermissions isHex24 [shopS] idS adminVendor =
      some { authorized := true, status := none, message := none, shop := some shopS } := by
    decide
  have h := createTableForShop_body_handling isHex24 requireBoth [shopS] [] idS adminVendor
    pairWithStringBatch _ hcheck rfl
  have hs : (createTableForShop isHex24 requireBoth [shopS] [] idS adminVendor
      pairWithStringBatch).1.status = 201 :=
    (h.2.2.2.1 rfl).2 ⟨rfl, rfl⟩
  obtain ⟨docs, hd, _, _, _, hdocs⟩ := h.2.2.2.2.1 hs
  exact ⟨hcheck, hs, docs, hd, hdocs rfl⟩

/-- C7, counterexample.  An administrator posts a batch whose only element
is the empty object and no single pair: the body holds neither a valid pair
nor a valid batch, yet the answer is never 400.  It is 500 when the model
requires the two fields, and 201 with a table lacking both when it does not.
A supplied pair with table number 0 is answered 400. -/
theorem createTableForShop_invalid_batch_not_400 :
    checkTablePermissions isHex24 [shopS] idS adminVendor =
      some { authorized := true, status := none, message := none, shop := some shopS } ∧
    (createTableForShop isHex24 requireBoth [shopS] [] idS adminVendor
      batchOfEmptyObject).1.status = 500 ∧
    (createTableForShop isHex24 acceptAll [shopS] [] idS adminVendor
      batchOfEmptyObject).1.status = 201 ∧
    (createTableForShop isHex24 acceptAll [shopS] [] idS adminVendor
      batchOfEmptyObject).2 = [⟨idS, JsVal.undefined, JsVal.undefined⟩] ∧
    (createTableForShop isHex24 requireBoth [shopS] [] idS adminVendor
      pairWithZero).1.status = 400 := by
  refine ⟨by decide, by decide, by decide, ?_, by decide⟩
  have hcheck : checkTablePermissions isHex24 [shopS] idS adminVendor =
      some { authorized := true, status := none, message := none, shop := some shopS } := by
    decide
  rw [createTableForShop_batch isHex24 acceptAll [shopS] [] idS adminVendor batchOfEmptyObject
    [JsVal.obj []] _ hcheck rfl rfl]
  rfl

/-! ## Review controller -/

/-- C2, the code at the failing input.  A guest order exists, is completed
and has no review; a review request for it by user `U1` is answered 500
(`Server Error`), not 403, because reading `order.user.toString()` throws.
No review is created. -/
theorem createReview_guest_order_500 :
    Order.findById isHex24 [guestOrder] idGuest = Lookup.found guestOrder ∧
    guestOrder.user = none ∧
    (createReview isHex24 acceptAnyReview [guestOrder] [] idGuest idU1
      (JsVal.num 5) (JsVal.str "great")).1.status = 500 ∧
    (createReview isHex24 acceptAnyReview [guestOrder] [] idGuest idU1
      (JsVal.num 5) (JsVal.str "great")).1.message = "Server Error" ∧
    (createReview isHex24 acceptAnyReview [guestOrder] [] idGuest idU1
      (JsVal.num 5) (JsVal.str "great")).2 = [] := by
  have hfound : Order.findById isHex24 [guestOrder] idGuest = Lookup.found guestOrder := by
    decide
  refine ⟨hfound, rfl, ?_, ?_, ?_⟩ <;> (simp only [createReview, hfound]; rfl)

/-- For an order that has a `user`, `createReview` checks in the documented
order: 404 for a missing order, then 403 for a foreign order, then 400 for an
order that is not completed, then 400 for an order already reviewed; a
failure leaves the reviews as they are.  Past the checks it hands the review
`{ rating, comment, user: caller, shop: order.shop, order: orderId }` to the
model and answers 201 when the model accepts it. -/
theorem createReview_checks (isObjectId : String → Bool) (validate : Review → Bool)
    (orders : List Order) (reviews : List Review) (orderId : String) (userId : ObjectId)
    (rating comment : JsVal) :
    (Order.findById isObjectId orders orderId = Lookup.missing →
      (createReview isObjectId validate orders reviews orderId userId rating comment).1.status = 404 ∧
      (createReview isObjectId validate orders reviews orderId userId rating comment).2 = reviews) ∧
    (∀ order orderUser, Order.findById isObjectId orders orderId = Lookup.found order →
      order.user = some orderUser →
      (orderUser ≠ userId →
        (createReview isObjectId validate orders reviews orderId userId rating comment).1.status = 403 ∧
        (createReview isObjectId validate orders reviews orderId userId rating comment).2 = reviews) ∧
      (orderUser = userId → order.orderStatus ≠ "Completed" →
        (createReview isObjectId validate orders reviews orderId userId rating comment).1.status = 400 ∧
        (createReview isObjectId validate orders reviews orderId userId rating comment).2 = reviews) ∧
      (orderUser = userId → order.orderStatus = "Completed" →
        (Review.findOne reviews orderId).isSome →
        (createReview isObjectId validate orders reviews orderId userId rating comment).1.status = 400 ∧
        (createReview isObjectId validate orders reviews orderId userId rating comment).2 = reviews) ∧
      (orderUser = userId → order.orderStatus = "Completed" →
        Review.findOne reviews orderId = none →
        validate ⟨rating, comment, userId, order.shop, orderId⟩ = true →
        (createReview isObjectId validate orders reviews orderId userId rating comment).1.status = 201 ∧
        (createReview isObjectId validate orders reviews orderId userId rating comment).1.data =
          some ⟨rating, comment, userId, order.shop, orderId⟩ ∧
        (createReview isObjectId validate orders reviews orderId userId rating comment).2 =
          reviews ++ [⟨rating, comment, userId, order.shop, orderId⟩])) := by
  refine ⟨?_, ?_⟩
  · intro h
    simp [createReview, h]
  · intro order orderUser hfound huser
    refine ⟨?_, ?_, ?_, ?_⟩
    · intro hne
      simp [createReview, hfound, huser, hne]
    · intro heq hst
      simp [createReview, hfound, huser, heq, hst]
    · intro heq hst hex
      obtain ⟨r, hr⟩ := Option.isSome_iff_exists.mp hex
      simp [createReview, hfound, huser, heq, hst, hr]
    · intro heq hst hex hv
      simp [createReview, hfound, huser, heq, hst, hex, hv]

theorem findOne_isSome_iff (reviews : List Review) (orderId : ObjectId) :
    (Review.findOne reviews orderId).isSome ↔ orderId ∈ reviews.map (fun r => r.order) := by
  unfold Review.findOne
  rw [List.find?_isSome]
  simp only [List.mem_map, beq_iff_eq]

theorem findOne_eq_none_iff (reviews : List Review) (orderId : ObjectId) :
    Review.findOne reviews orderId = none ↔ orderId ∉ reviews.map (fun r => r.order) := by
  rw [← findOne_isSome_iff]
  cases Review.findOne reviews orderId <;> simp

/-- Every answer of `createReview` is either a failure that leaves the
reviews untouched, or a 201 that appends one review of the requested order,
for an order that belongs to the caller, is completed and had no review. -/
theorem createReview_step (isObjectId : String → Bool) (validate : Review → Bool)
    (orders : List Order) (reviews : List Review) (orderId : String) (userId : ObjectId)
    (rating comment : JsVal) :
    ((createReview isObjectId validate orders reviews orderId userId rating comment).1.status ≠ 201 ∧
      (createReview isObjectId validate orders reviews orderId userId rating comment).2 = reviews) ∨
    ((createReview isObjectId validate orders reviews orderId userId rating comment).1.status = 201 ∧
      Review.findOne reviews orderId = none ∧
      ∃ order, Order.findById isObjectId orders orderId = Lookup.found order ∧
        order.user = some userId ∧
        order.orderStatus = "Completed" ∧
        (createReview isObjectId validate orders reviews orderId userId rating comment).2 =
          reviews ++ [⟨rating, comment, userId, order.shop, orderId⟩]) := by
  cases hfound : Order.findById isObjectId orders orderId with
  | castError => left; simp [createReview, hfound, reviewServerError]
  | missing => left; simp [createReview, hfound]
  | found order =>
    cases huser : order.user with
    | none => left; simp [createReview, hfound, huser, reviewServerError]
    | some orderUser =>
      by_cases hne : orderUser = userId
      · by_cases hst : order.orderStatus = "Completed"
        · cases hex : Review.findOne reviews orderId with
          | some r => left; simp [createReview, hfound, huser, hne, hst, hex]
          | none =>
            cases hv : validate ⟨rating, comment, userId, order.shop, orderId⟩ with
            | false =>
              left; simp [createReview, hfound, huser, hne, hst, hex, hv, reviewServerError]
            | true =>
              right; simp [createReview, hfound, huser, hne, hst, hex, hv]
        · left; simp [createReview, hfound, huser, hne, hst]
      · left; simp [createReview, hfound, huser, hne]

theorem createReview_preserves (isObjectId : String → Bool) (validate : Review → Bool)
    (orders : List Order) (reviews : List Review) (orderId : String) (userId : ObjectId)
    (rating comment : JsVal)
    (hinv : OneReviewPerOrder reviews) :
    OneReviewPerOrder
      (createReview isObjectId validate orders reviews orderId userId rating comment).2 := by
  rcases createReview_step isObjectId validate orders reviews orderId userId rating comment with
    ⟨_, h⟩ | ⟨_, hnone, order, _, _, _, h⟩
  · rw [h]; exact hinv
  · rw [h]
    unfold OneReviewPerOrder at hinv ⊢
    rw [List.map_append, List.nodup_append]
    refine ⟨hinv, by simp, ?_⟩
    have hnot := (findOne_eq_none_iff reviews orderId).mp hnone
    intro a ha hb
    simp only [List.map_cons, List.map_nil, List.mem_singleton] at hb
    subst hb
    exact hnot ha

theorem createReview_keeps_reviewed (isObjectId : String → Bool)
    (validate : Review → Bool) (orders : List Order) (reviews : List Review)
    (orderId : String) (userId : ObjectId) (rating comment : JsVal) (o : ObjectId) (h : o ∈ reviews.map (fun r => r.order)) :
    o ∈ (createReview isObjectId validate orders reviews orderId userId rating comment).2.map
      (fun r => r.order) := by
  rcases createReview_step isObjectId validate orders reviews orderId userId rating comment with
    ⟨_, h'⟩ | ⟨_, _, order, _, _, _, h'⟩
  · rw [h']; exact h
  · rw [h', List.map_append]
    exact List.mem_append_left _ h

theorem reviewsAfter_append (isObjectId : String → Bool) (validate : Review → Bool)
    (orders : List Order) :
    ∀ (pre post : List ReviewRequest) (reviews : List Review),
      reviewsAfter isObjectId validate orders reviews (pre ++ post) =
        reviewsAfter isObjectId validate orders (reviewsAfter isObjectId validate orders reviews pre) post := by
  intro pre
  induction pre with
  | nil => intro post reviews; rfl
  | cons q rest ih =>
    intro post reviews
    simp only [List.cons_append, reviewsAfter]
    exact ih post _

theorem reviewsAfter_preserves (isObjectId : String → Bool) (validate : Review → Bool)
    (orders : List Order) :
    ∀ (reqs : List ReviewRequest) (reviews : List Review),
      OneReviewPerOrder reviews →
      OneReviewPerOrder (reviewsAfter isObjectId validate orders reviews reqs) := by
  intro reqs
  induction reqs with
  | nil => intro reviews h; exact h
  | cons q rest ih =>
    intro reviews h
    simp only [reviewsAfter]
    exact ih _ (createReview_preserves isObjectId validate orders reviews _ _ _ _ h)

theorem reviewsAfter_keeps_reviewed (isObjectId : String → Bool)
    (validate : Review → Bool) (orders : List Order) (o : ObjectId) :
    ∀ (reqs : List ReviewRequest) (reviews : List Review),
      o ∈ reviews.map (fun r => r.order) →
      o ∈ (reviewsAfter isObjectId validate orders reviews reqs).map (fun r => r.order) := by
  intro reqs
  induction reqs with
  | nil => intro reviews h; exact h
  | cons q rest ih =>
    intro reviews h
    simp only [reviewsAfter]
    exact ih _ (createReview_keeps_reviewed isObjectId validate orders reviews _ _ _ _ o h)

/-- Once an order of user `u` that is completed has a review, a further
`createReview` for it is answered 400 to `u` and 403 to anybody else, and
changes nothing. -/
theorem createReview_after_success (isObjectId : String → Bool)
    (validate : Review → Bool) (orders : List Order) (reviews : List Review)
    (orderId : String) (u userId : ObjectId) (rating comment : JsVal)
    (order : Order) (hfound : Order.findById isObjectId orders orderId = Lookup.found order)
    (huser : order.user = some u) (hst : order.orderStatus = "Completed")
    (hrev : orderId ∈ reviews.map (fun r => r.order)) :
    (createReview isObjectId validate orders reviews orderId userId rating comment).1.status =
        (if userId = u then 400 else 403) ∧
      (createReview isObjectId validate orders reviews orderId userId rating comment).2 = reviews := by
  have hc := (createReview_checks isObjectId validate orders reviews orderId userId rating
    comment).2
    order u hfound huser
  by_cases hu : userId = u
  · rw [if_pos hu]
    exact hc.2.2.1 hu.symm hst ((findOne_isSome_iff reviews orderId).mpr hrev)
  · rw [if_neg hu]
    exact hc.1 (fun h => hu h.symm)

/-- C4. Starting from reviews with at most one review per order, serving any
sequence of `createReview` requests one after the other keeps at most one
review per order.  Whenever a request `q` of the sequence is answered 201,
every later request `q'` of the sequence for the same order is answered 400
when posted by the user of `q` and 403 when posted by anybody else, so never
201 again, and leaves the reviews as they are. -/
theorem createReview_at_most_once (isObjectId : String → Bool) (validate : Review → Bool)
    (orders : List Order) (reviews : List Review) (hinv : OneReviewPerOrder reviews)
    (reqs : List ReviewRequest) :
    OneReviewPerOrder (reviewsAfter isObjectId validate orders reviews reqs) ∧
    ∀ (pre mid post : List ReviewRequest) (q q' : ReviewRequest),
      reqs = pre ++ q :: (mid ++ q' :: post) →
      (createReview isObjectId validate orders (reviewsAfter isObjectId validate orders reviews pre)
        q.orderId q.userId q.rating q.comment).1.status = 201 →
      q'.orderId = q.orderId →
      (createReview isObjectId validate orders (reviewsAfter isObjectId validate orders reviews (pre ++ q :: mid))
          q'.orderId q'.userId q'.rating q'.comment).1.status =
        (if q'.userId = q.userId then 400 else 403) ∧
      (createReview isObjectId validate orders (reviewsAfter isObjectId validate orders reviews (pre ++ q :: mid))
          q'.orderId q'.userId q'.rating q'.comment).1.status ≠ 201 ∧
      (createReview isObjectId validate orders (reviewsAfter isObjectId validate orders reviews (pre ++ q :: mid))
          q'.orderId q'.userId q'.rating q'.comment).2 =
        reviewsAfter isObjectId validate orders reviews (pre ++ q :: mid) := by
  refine ⟨reviewsAfter_preserves isObjectId validate orders reqs reviews hinv, ?_⟩
  intro pre mid post q q' _ h201 hsame
  rcases createReview_step isObjectId validate orders
      (reviewsAfter isObjectId validate orders reviews pre)
      q.orderId q.userId q.rating q.comment with ⟨hne, _⟩ | ⟨_, _, order, hfound, huser, hst, hstore⟩
  · exact absurd h201 hne
  · have hmem : q.orderId ∈
        (reviewsAfter isObjectId validate orders reviews (pre ++ q :: mid)).map (fun r => r.order) := by
      rw [reviewsAfter_append]
      simp only [reviewsAfter]
      apply reviewsAfter_keeps_reviewed
      rw [hstore]
      simp
    rw [hsame]
    have h := createReview_after_success isObjectId validate orders
      (reviewsAfter isObjectId validate orders reviews (pre ++ q :: mid)) q.orderId q.userId q'.userId
      q'.rating q'.comment order hfound huser hst hmem
    refine ⟨h.1, ?_, h.2⟩
    rw [h.1]
    split <;> decide

/-- Witness for C4, the scenario of the specification: `ORD1` of user `U1`
is completed and has no review; `U1` posts a review, posts again, then `U2`
posts.  The answers are 201, 400, 403 and one review is stored. -/
theorem createReview_at_most_once_witness :
    OneReviewPerOrder [] ∧
    OneReviewPerOrder (reviewsAfter isHex24 acceptAnyReview [ord1] []
      [reviewBy idU1, reviewBy idU1, reviewBy idU2]) ∧
    reviewStatuses isHex24 acceptAnyReview [ord1] []
      [reviewBy idU1, reviewBy idU1, reviewBy idU2] = [201, 400, 403] ∧
    (reviewsAfter isHex24 acceptAnyReview [ord1] []
      [reviewBy idU1, reviewBy idU1, reviewBy idU2]).length = 1 :=
  ⟨List.nodup_nil,
    (createReview_at_most_once isHex24 acceptAnyReview [ord1] [] List.nodup_nil
      [reviewBy idU1, reviewBy idU1, reviewBy idU2]).1,
    by decide, by decide⟩

/-! ## Analytics -/

theorem mem_allCustomerIds (orders : List Order) (shopId id : ObjectId) :
    id ∈ allCustomerIds orders shopId ↔
      ∃ o ∈ orders, o.shop = shopId ∧ o.user = some id := by
  unfold allCustomerIds
  rw [List.mem_dedup, List.mem_filterMap]
  constructor
  · rintro ⟨o, ho, hu⟩
    rw [List.mem_filter] at ho
    refine ⟨o, ho.1, ?_, hu⟩
    have h2 := ho.2
    simp only [Bool.and_eq_true, beq_iff_eq] at h2
    exact h2.1
  · rintro ⟨o, ho, hs, hu⟩
    refine ⟨o, ?_, hu⟩
    rw [List.mem_filter]
    refine ⟨ho, ?_⟩
    simp [hs, hu]

theorem getShopAnalytics_owner (isObjectId : String → Bool) (tza now : Int)
    (shops : List Shop) (orders : List Order) (users : List User) (reviews : List Review)
    (shopId : String) (duration : Option String) (vendor : Vendor)
    (shop : Shop) (hfound : Shop.findById isObjectId shops shopId = Lookup.found shop)
    (howner : shop.owner = vendor._id) :
    getShopAnalytics isObjectId tza now shops orders users reviews shopId duration vendor =
      { status := 200, success := true, message := none,
        data := some
          { totalRevenue := ((totalStatsAggregate orders shopId
                (getDateRange tza now (duration.getD "day"))).head?.map (fun r => r.totalRevenue)).getD 0,
            totalOrders := ((totalStatsAggregate orders shopId
                (getDateRange tza now (duration.getD "day"))).head?.map (fun r => r.totalOrders)).getD 0,
            averageRating := averageRatingOrZero (ratingAggregate reviews shopId),
            totalCustomers := (User.findIn users (allCustomerIds orders shopId)).length,
            allCustomers := User.findIn users (allCustomerIds orders shopId) },
        queries := reportQueries } := by
  simp [getShopAnalytics, hfound, howner]

/-- C6, as amended.  For the owner of the shop, `allCustomers` holds exactly
the user profiles whose user has at least one order of the shop, whatever the
status and the date of that order, and `totalCustomers` is their number: with
distinct profile ids, the number of distinct non-null users that have an
order of the shop and resolve to a profile. -/
theorem getShopAnalytics_customers (isObjectId : String → Bool) (tza now : Int)
    (shops : List Shop) (orders : List Order) (users : List User) (reviews : List Review)
    (shopId : String) (duration : Option String) (vendor : Vendor) (shop : Shop)
    (hfound : Shop.findById isObjectId shops shopId = Lookup.found shop)
    (howner : shop.owner = vendor._id)
    (hids : (users.map (fun u => u._id)).Nodup) :
    ∃ d, (getShopAnalytics isObjectId tza now shops orders users reviews shopId duration vendor).data = some d ∧
      d.totalCustomers = d.allCustomers.length ∧
      (∀ u, u ∈ d.allCustomers ↔
        u ∈ users ∧ ∃ o ∈ orders, o.shop = shopId ∧ o.user = some u._id) ∧
      d.totalCustomers =
        ((users.map (fun u => u._id)).toFinset.filter
          (fun id => ∃ o ∈ orders, o.shop = shopId ∧ o.user = some id)).card := by
  rw [getShopAnalytics_owner isObjectId tza now shops orders users reviews shopId duration vendor
    shop hfound howner]
  refine ⟨_, rfl, rfl, ?_, ?_⟩
  · intro u
    simp only [User.findIn, List.mem_filter, decide_eq_true_eq, mem_allCustomerIds]
  · simp only [User.findIn]
    have hmap : ((users.filter (fun u => decide (u._id ∈ allCustomerIds orders shopId))).map
        (fun u => u._id)) =
        (users.map (fun u => u._id)).filter
          (fun id => decide (id ∈ allCustomerIds orders shopId)) := by
      rw [List.filter_map]
      rfl
    have hnd : ((users.map (fun u => u._id)).filter
        (fun id => decide (id ∈ allCustomerIds orders shopId))).Nodup := hids.filter _
    have hcard := List.toFinset_card_of_nodup hnd
    rw [← hmap, List.length_map] at hcard
    rw [← hcard, hmap, List.toFinset_filter]
    congr 1
    apply Finset.filter_congr
    intro id _
    simp only [decide_eq_true_eq, mem_allCustomerIds]

/-- Witness for C6: on the sample store the owner `V1` of shop `S` gets a
report whose `totalCustomers` is the length of `allCustomers`. -/
theorem getShopAnalytics_customers_witness :
    Shop.findById isHex24 [shopS] idS = Lookup.found shopS ∧
    shopS.owner = (plainVendor idV1)._id ∧
    (sampleUsers.map (fun u => u._id)).Nodup ∧
    ∃ d, (getShopAnalytics isHex24 0 sampleNow [shopS] sampleOrders sampleUsers [] idS
        (some "week") (plainVendor idV1)).data = some d ∧
      d.totalCustomers = d.allCustomers.length := by
  have h1 : Shop.findById isHex24 [shopS] idS = Lookup.found shopS := by decide
  have h2 : shopS.owner = (plainVendor idV1)._id := by decide
  have h3 : (sampleUsers.map (fun u => u._id)).Nodup := by decide
  obtain ⟨d, hd, hlen, _⟩ := getShopAnalytics_customers isHex24 0 sampleNow [shopS]
    sampleOrders sampleUsers [] idS (some "week") (plainVendor idV1) shopS h1 h2 h3
  exact ⟨h1, h2, h3, d, hd, hlen⟩

/-- C6, counterexample.  With duration `week`, user `U1` has only a pending
order of shop `S` and user `U2` only an order completed ten days ago: no user
has a completed order within the range, yet the report counts both. -/
theorem getShopAnalytics_counts_all_customers :
    (getShopAnalytics isHex24 0 sampleNow [shopS] sampleOrders sampleUsers [] idS
        (some "week") (plainVendor idV1)).status = 200 ∧
    (getShopAnalytics isHex24 0 sampleNow [shopS] sampleOrders sampleUsers [] idS
        (some "week") (plainVendor idV1)).data.map (fun d => d.totalCustomers) = some 2 ∧
    (getShopAnalytics isHex24 0 sampleNow [shopS] sampleOrders sampleUsers [] idS
        (some "week") (plainVendor idV1)).data.map (fun d => d.allCustomers)
      = some sampleUsers ∧
    customersCompletedInRange sampleOrders sampleUsers idS
        (getDateRange 0 sampleNow "week") = [] := by
  refine ⟨by decide, by decide, by decide, by decide⟩

/-- C9, as amended.  `getShopAnalytics` answers 200 with a report exactly
when the shop exists and its owner's id, as a string, is the calling vendor's
id.  For a shop id that casts to an `ObjectId` it answers in every other
case, whatever the vendor's role and managed food court and also when no
shop has the id, 403 `Access denied.` without data and without issuing any
of the report queries. -/
theorem getShopAnalytics_access (isObjectId : String → Bool) (tza now : Int)
    (shops : List Shop) (orders : List Order) (users : List User) (reviews : List Review)
    (shopId : String) (duration : Option String) (vendor : Vendor) :
    ((getShopAnalytics isObjectId tza now shops orders users reviews shopId duration
        vendor).status = 200 ↔
      ∃ shop, Shop.findById isObjectId shops shopId = Lookup.found shop ∧
        shop.owner = vendor._id) ∧
    ((∃ shop, Shop.findById isObjectId shops shopId = Lookup.found shop ∧
        shop.owner = vendor._id) →
      (getShopAnalytics isObjectId tza now shops orders users reviews shopId duration
        vendor).data.isSome ∧
      (getShopAnalytics isObjectId tza now shops orders users reviews shopId duration
        vendor).queries = reportQueries) ∧
    (isObjectId shopId = true →
      (¬ ∃ shop, Shop.findById isObjectId shops shopId = Lookup.found shop ∧
        shop.owner = vendor._id) →
      getShopAnalytics isObjectId tza now shops orders users reviews shopId duration vendor =
        { status := 403, success := false, message := some "Access denied.",
          data := none, queries := [] }) := by
  cases hfound : Shop.findById isObjectId shops shopId with
  | castError =>
    have hid := (Shop.findById_castError isObjectId shops shopId).mp hfound
    simp [getShopAnalytics, hfound, hid]
  | missing => simp [getShopAnalytics, hfound]
  | found shop =>
    by_cases howner : shop.owner = vendor._id
    · rw [getShopAnalytics_owner isObjectId tza now shops orders users reviews shopId duration
        vendor shop hfound howner]
      simp [howner]
    · simp [getShopAnalytics, hfound, howner]

/-- Witness for C9: on the sample store the owner `V1` of shop `S` gets the
report, and an administrator gets the 403 answer with no query issued. -/
theorem getShopAnalytics_access_witness :
    isHex24 idS = true ∧
    (getShopAnalytics isHex24 0 sampleNow [shopS] sampleOrders sampleUsers [] idS none
        (plainVendor idV1)).status = 200 ∧
    getShopAnalytics isHex24 0 sampleNow [shopS] sampleOrders sampleUsers [] idS none
        adminVendor =
      { status := 403, success := false, message := some "Access denied.",
        data := none, queries := [] } :=
  ⟨by decide,
    (getShopAnalytics_access isHex24 0 sampleNow [shopS] sampleOrders sampleUsers [] idS none
      (plainVendor idV1)).1.mpr ⟨shopS, by decide, by decide⟩,
    (getShopAnalytics_access isHex24 0 sampleNow [shopS] sampleOrders sampleUsers [] idS none
      adminVendor).2.2 (by decide) (by
        rintro ⟨shop, hfound, howner⟩
        have h : Shop.findById isHex24 [shopS] idS = Lookup.found shopS := by decide
        rw [h] at hfound
        cases hfound
        revert howner
        decide)⟩

/-- C9, counterexample.  No shop has the id `not-an-objectid`; the owner of
another shop asking for its report is answered 500 `Server Error`, not 403
`Access denied.`: the shop query rejects with a cast error and the handler's
`catch` branch answers. -/
theorem getShopAnalytics_malformed_id :
    [shopS].find? (fun s => s._id == malformedId) = none ∧
    isHex24 malformedId = false ∧
    (getShopAnalytics isHex24 0 sampleNow [shopS] sampleOrders sampleUsers [] malformedId
        none (plainVendor idV1)).status = 500 ∧
    (getShopAnalytics isHex24 0 sampleNow [shopS] sampleOrders sampleUsers [] malformedId
        none (plainVendor idV1)).message = some "Server Error" := by
  refine ⟨by decide, by decide, by decide, by decide⟩

/-- On a food-court shop owned by `V1`, an administrator and the manager of
the food court are both refused the report, while the table policy admits
them. -/
theorem getShopAnalytics_refuses_admin_and_manager :
    (getShopAnalytics isHex24 0 sampleNow [shopInFoodCourt] sampleOrders sampleUsers [] idS
        (some "day") adminVendor).status = 403 ∧
    (getShopAnalytics isHex24 0 sampleNow [shopInFoodCourt] sampleOrders sampleUsers [] idS
        none managerOfFC1).status = 403 ∧
    (checkTablePermissions isHex24 [shopInFoodCourt] idS adminVendor).map
        (fun r => r.authorized) = some true ∧
    (checkTablePermissions isHex24 [shopInFoodCourt] idS managerOfFC1).map
        (fun r => r.authorized) = some true := by
  refine ⟨by decide, by decide, by decide, by decide⟩

/-! ## Average rating -/

theorem roundHalfEven_err (x : ℚ) : |(roundHalfEven x : ℚ) - x| ≤ 1 / 2 := by
  have h1 := Int.floor_le x
  have h2 := Int.lt_floor_add_one x
  unfold roundHalfEven
  simp only
  split_ifs with a b c
  · rw [abs_le]; constructor <;> linarith
  · rw [abs_le]; push_cast; constructor <;> linarith
  · rw [abs_le]; constructor <;> linarith
  · rw [abs_le]; push_cast; constructor <;> linarith

theorem toDouble_err (q : ℚ) (hq : 0 < q) : |toDouble q - q| ≤ q / 2 ^ 53 := by
  have hlog : (2 : ℚ) ^ (Int.log 2 q) ≤ q := Int.zpow_log_le_self (by norm_num) hq
  unfold toDouble binade
  rw [if_neg (ne_of_gt hq), abs_of_pos hq]
  set e := Int.log 2 q with he
  have hu : (0 : ℚ) < 2 ^ (e - 52) := by positivity
  have hr := roundHalfEven_err (q / 2 ^ (e - 52))
  have key : (roundHalfEven (q / 2 ^ (e - 52)) : ℚ) * 2 ^ (e - 52) - q =
      ((roundHalfEven (q / 2 ^ (e - 52)) : ℚ) - q / 2 ^ (e - 52)) * 2 ^ (e - 52) := by
    field_simp
  rw [key, abs_mul, abs_of_pos hu]
  have h53 : (2 : ℚ) ^ (e - 52) = 2 ^ e / 2 ^ 52 := by
    rw [zpow_sub₀ (by norm_num : (2 : ℚ) ≠ 0)]
    norm_num
  calc |(roundHalfEven (q / 2 ^ (e - 52)) : ℚ) - q / 2 ^ (e - 52)| * 2 ^ (e - 52)
      ≤ 1 / 2 * 2 ^ (e - 52) := by gcongr
    _ = 2 ^ e / 2 ^ 53 := by rw [h53]; ring
    _ ≤ q / 2 ^ 53 := by gcongr

theorem roundHalfEven_eq (x : ℚ) (n : Int) (h1 : (n : ℚ) - 1 / 2 < x) (h2 : x < n + 1 / 2) :
    roundHalfEven x = n := by
  have hf1 := Int.floor_le x
  have hf2 := Int.lt_floor_add_one x
  unfold roundHalfEven
  simp only
  split_ifs with a b c
  · -- frac < 1/2 : n = floor
    have : (⌊x⌋ : ℚ) < n + 1 := by linarith
    have h3 : ⌊x⌋ < n + 1 := by exact_mod_cast this
    have : (n : ℚ) < ⌊x⌋ + 1 := by linarith
    have h4 : n < ⌊x⌋ + 1 := by exact_mod_cast this
    omega
  · have : (n : ℚ) < ⌊x⌋ + 1 + 1 := by linarith
    have h4 : n < ⌊x⌋ + 1 + 1 := by exact_mod_cast this
    have : (⌊x⌋ : ℚ) < n := by linarith
    have h6 : ⌊x⌋ < n := by exact_mod_cast this
    omega
  · exfalso
    have hx : x - ⌊x⌋ = 1 / 2 := le_antisymm (not_lt.mp b) (not_lt.mp a)
    have : (n : ℚ) - 1 < ⌊x⌋ := by linarith
    have h5 : n - 1 < ⌊x⌋ := by exact_mod_cast this
    have : (⌊x⌋ : ℚ) < n := by linarith
    have h6 : ⌊x⌋ < n := by exact_mod_cast this
    omega
  · exfalso
    have hx : x - ⌊x⌋ = 1 / 2 := le_antisymm (not_lt.mp b) (not_lt.mp a)
    have : (n : ℚ) - 1 < ⌊x⌋ := by linarith
    have h5 : n - 1 < ⌊x⌋ := by exact_mod_cast this
    have : (⌊x⌋ : ℚ) < n := by linarith
    have h6 : ⌊x⌋ < n := by exact_mod_cast this
    omega

theorem binade_eq (q : ℚ) (e : Int) (hq : 0 < q) (h1 : (2 : ℚ) ^ e ≤ q)
    (h2 : q < (2 : ℚ) ^ (e + 1)) : binade q = e := by
  unfold binade
  rw [abs_of_pos hq]
  have a := (Int.zpow_le_iff_le_log (b := 2) (by norm_num) hq).mp (by exact_mod_cast h1)
  have b := (Int.lt_zpow_iff_log_lt (b := 2) (by norm_num) hq).mp (by exact_mod_cast h2)
  omega

theorem toDouble_87_20 : toDouble (87 / 20) = 4897664594765414 / 2 ^ 50 := by
  have hb : binade (87 / 20) = 2 := binade_eq _ _ (by norm_num) (by norm_num) (by norm_num)
  unfold toDouble
  rw [if_neg (by norm_num), hb]
  have hr : roundHalfEven (87 / 20 / (2 : ℚ) ^ ((2 : Int) - 52)) = 4897664594765414 := by
    apply roundHalfEven_eq
    · norm_num
    · norm_num
  rw [hr]
  norm_num

theorem toFixed1_eq (x : ℚ) (n : Int) (h0 : 0 ≤ x) (hbig : x < 10 ^ 21)
    (h1 : (n : ℚ) - 1 / 2 ≤ 10 * x) (h2 : 10 * x < n + 1 / 2) : toFixed1 x = n / 10 := by
  unfold toFixed1
  rw [if_neg (by rw [abs_of_nonneg h0]; exact not_le.mpr hbig), if_neg (not_lt.mpr h0)]
  have : ⌊10 * x + 1 / 2⌋ = n := by
    rw [Int.floor_eq_iff]
    constructor <;> linarith
  rw [this]

theorem toFixed1_toDouble_87_20 : toFixed1 (toDouble (87 / 20)) = 43 / 10 := by
  rw [toDouble_87_20]
  have := toFixed1_eq (4897664594765414 / 2 ^ 50) 43 (by norm_num) (by norm_num)
    (by norm_num) (by norm_num)
  simpa using this

theorem toDouble_zero : toDouble 0 = 0 := by
  unfold toDouble
  simp

theorem toFixed1_toDouble_mean (s c : ℕ) (hc : 0 < c) (hs : 20 * s < 2 ^ 53)
    (htie : ∀ k : ℤ, (10 : ℚ) * ((s : ℚ) / c) + 1 / 2 ≠ k) :
    toFixed1 (toDouble ((s : ℚ) / c)) = ((⌊(10 : ℚ) * ((s : ℚ) / c) + 1 / 2⌋ : ℤ) : ℚ) / 10 := by
  have hcq : (0 : ℚ) < c := by exact_mod_cast hc
  rcases Nat.eq_zero_or_pos s with h0 | hpos
  · subst h0
    simp only [Nat.cast_zero, zero_div, mul_zero, zero_add, toDouble_zero]
    have := toFixed1_eq 0 ⌊(1 / 2 : ℚ)⌋ le_rfl (by norm_num)
      (by have := Int.floor_le (1 / 2 : ℚ); linarith)
      (by have := Int.lt_floor_add_one (1 / 2 : ℚ); linarith)
    exact this
  · have hsq : (0 : ℚ) < s := by exact_mod_cast hpos
    set q : ℚ := (s : ℚ) / c with hq
    have hqpos : 0 < q := div_pos hsq hcq
    have hqc : q * c = s := div_mul_cancel₀ _ (ne_of_gt hcq)
    have herr := toDouble_err q hqpos
    rw [abs_le] at herr
    set k : ℤ := ⌊(10 : ℚ) * q + 1 / 2⌋ with hk
    have ht1 : (k : ℚ) ≤ 10 * q + 1 / 2 := Int.floor_le _
    have ht2 : 10 * q + 1 / 2 < k + 1 := Int.lt_floor_add_one _
    have ht1' : (k : ℚ) < 10 * q + 1 / 2 := lt_of_le_of_ne ht1 (fun h => htie k h.symm)
    have h2c : (0 : ℚ) < 2 * c := by linarith
    -- integrality margins
    have hA : (1 : ℚ) ≤ 2 * c * (10 * q + 1 / 2 - k) := by
      have e : (2 : ℚ) * c * (10 * q + 1 / 2 - k) = ((20 * s + c - 2 * c * k : ℤ) : ℚ) := by
        push_cast
        linear_combination (20 : ℚ) * hqc
      have hposA : (0 : ℚ) < 2 * c * (10 * q + 1 / 2 - k) := mul_pos h2c (by linarith)
      rw [e] at hposA ⊢
      have : (0 : ℤ) < 20 * s + c - 2 * c * k := by exact_mod_cast hposA
      exact_mod_cast this
    have hB : (1 : ℚ) ≤ 2 * c * (k + 1 - (10 * q + 1 / 2)) := by
      have e : (2 : ℚ) * c * (k + 1 - (10 * q + 1 / 2)) =
          ((2 * c * (k + 1) - 20 * s - c : ℤ) : ℚ) := by
        push_cast
        linear_combination (-20 : ℚ) * hqc
      have hposB : (0 : ℚ) < 2 * c * (k + 1 - (10 * q + 1 / 2)) := mul_pos h2c (by linarith)
      rw [e] at hposB ⊢
      have : (0 : ℤ) < 2 * c * (k + 1) - 20 * s - c := by exact_mod_cast hposB
      exact_mod_cast this
    have hE : 2 * c * (10 * (q / 2 ^ 53)) < 1 := by
      have e : 2 * (c : ℚ) * (10 * (q / 2 ^ 53)) = (20 * s : ℚ) / 2 ^ 53 := by
        field_simp
        linear_combination (20 : ℚ) * hqc
      rw [e, div_lt_one (by positivity)]
      exact_mod_cast hs
    have hlow : (k : ℚ) - 1 / 2 ≤ 10 * toDouble q := by
      have : 0 < 2 * (c : ℚ) * (10 * q + 1 / 2 - k - 10 * (q / 2 ^ 53)) := by linarith
      have := (mul_pos_iff_of_pos_left h2c).mp this
      linarith
    have hhigh : 10 * toDouble q < k + 1 / 2 := by
      have : 0 < 2 * (c : ℚ) * (k + 1 - (10 * q + 1 / 2) - 10 * (q / 2 ^ 53)) := by linarith
      have := (mul_pos_iff_of_pos_left h2c).mp this
      linarith
    have hd0 : 0 ≤ toDouble q := by
      have : q / 2 ^ 53 ≤ q := div_le_self hqpos.le (by norm_num)
      linarith
    have hdbig : toDouble q < 10 ^ 21 := by
      have h1 : q / 2 ^ 53 ≤ q := div_le_self hqpos.le (by norm_num)
      have h2 : q ≤ s := by
        rw [hq]
        exact div_le_self hsq.le (by exact_mod_cast hc)
      have h3 : (20 : ℚ) * s < 2 ^ 53 := by exact_mod_cast hs
      have h4 : (2 : ℚ) ^ 53 < 10 ^ 21 := by norm_num
      linarith
    exact toFixed1_eq (toDouble q) k hd0 hdbig hlow hhigh

theorem toDouble_43_ne_44 : toDouble (43 / 10) ≠ toDouble (44 / 10) := by
  have h1 := toDouble_err (43 / 10) (by norm_num)
  have h2 := toDouble_err (44 / 10) (by norm_num)
  rw [abs_le] at h1 h2
  intro h
  rw [h] at h1
  norm_num at h1 h2
  linarith [h1.2, h2.1]

theorem filterMap_number_nums (ratings : List Nat) :
    (ratings.map (fun (n : Nat) => JsVal.num (n : Int))).filterMap JsVal.number? =
      ratings.map (fun (n : Nat) => (n : Int)) := by
  induction ratings with
  | nil => rfl
  | cons n rest ih => simp [JsVal.number?, ih]

theorem sum_cast_nums (ratings : List Nat) :
    (((ratings.map (fun (n : Nat) => (n : Int))).sum : Int) : ℚ) = (ratings.sum : ℚ) := by
  induction ratings with
  | nil => simp
  | cons n rest ih =>
    simp only [List.map_cons, List.sum_cons, Int.cast_add, Int.cast_natCast, Nat.cast_add, ih]

/-- The accumulator `$avg` over integer ratings is the binary64 number
nearest to their exact mean. -/
theorem avgOf_nums (ratings : List Nat) (hne : ratings ≠ []) :
    avgOf (ratings.map (fun (n : Nat) => JsVal.num (n : Int))) = some (toDouble (exactMean ratings)) := by
  unfold avgOf
  rw [filterMap_number_nums]
  cases hr : ratings with
  | nil => exact absurd hr hne
  | cons n rest =>
    have hs := sum_cast_nums (n :: rest)
    simp only [List.map_cons] at hs ⊢
    rw [hs]
    simp [exactMean]

theorem Shop.findById_found_castable (isObjectId : String → Bool) (shops : List Shop)
    (shopId : String) (shop : Shop)
    (hfound : Shop.findById isObjectId shops shopId = Lookup.found shop) :
    isObjectId shopId = true := by
  cases hid : isObjectId shopId with
  | true => rfl
  | false =>
    rw [(Shop.findById_castError isObjectId shops shopId).mpr hid] at hfound
    cases hfound

theorem ratingAggregate_empty (reviews : List Review) (shopId : ObjectId)
    (h : reviews.filter (fun r => r.shop == shopId) = []) :
    ratingAggregate reviews shopId = [] := by
  unfold ratingAggregate
  rw [h]

theorem ratingAggregate_nonempty (reviews : List Review) (shopId : ObjectId)
    (h : reviews.filter (fun r => r.shop == shopId) ≠ []) :
    ratingAggregate reviews shopId =
      [{ averageRating :=
           avgOf ((reviews.filter (fun r => r.shop == shopId)).map (fun x => x.rating)),
         reviewCount := (reviews.filter (fun r => r.shop == shopId)).length }] := by
  unfold ratingAggregate
  cases hf : reviews.filter (fun r => r.shop == shopId) with
  | nil => exact absurd hf h
  | cons r rest => rfl

theorem length_findForShop (createdAt : Review → Int) (users : List User)
    (reviews : List Review) (shopId : ObjectId) :
    (Review.findForShop createdAt users reviews shopId).length =
      (reviews.filter (fun r => r.shop == shopId)).length := by
  unfold Review.findForShop
  rw [List.length_map, List.length_insertionSort]

/-- The two handlers on a shop whose reviews have a numeric average `avg`:
both report `parseFloat(avg.toFixed(1))`. -/
theorem averageRating_of_avg (isObjectId : String → Bool) (createdAt : Review → Int)
    (users : List User) (reviews : List Review) (shopId : String) (avg : ℚ)
    (hid : isObjectId shopId = true)
    (hne : reviews.filter (fun r => r.shop == shopId) ≠ [])
    (havg : avgOf ((reviews.filter (fun r => r.shop == shopId)).map (fun x => x.rating)) =
      some avg) :
    getReviewsForShop isObjectId createdAt users reviews shopId =
      { status := 200, success := true, message := none,
        count := some (reviews.filter (fun r => r.shop == shopId)).length,
        averageRating := some (parseFloatToFixed1 avg),
        data := some (Review.findForShop createdAt users reviews shopId) } ∧
    averageRatingOrZero (ratingAggregate reviews shopId) = parseFloatToFixed1 avg := by
  constructor
  · unfold getReviewsForShop
    rw [ratingAggregate_nonempty reviews shopId hne]
    simp [hid, havg, length_findForShop]
  · rw [ratingAggregate_nonempty reviews shopId hne]
    simp only [averageRatingOrZero, List.head?_cons, Option.some_bind, havg]
    split_ifs with h
    · exact h.symm
    · rfl

theorem getReviewsForShop_no_reviews (isObjectId : String → Bool) (createdAt : Review → Int)
    (users : List User) (reviews : List Review) (shopId : String)
    (hid : isObjectId shopId = true)
    (hempty : reviews.filter (fun r => r.shop == shopId) = []) :
    getReviewsForShop isObjectId createdAt users reviews shopId =
      { status := 200, success := true, message := none, count := some 0,
        averageRating := some 0, data := some [] } := by
  unfold getReviewsForShop
  rw [ratingAggregate_empty reviews shopId hempty]
  simp [hid, Review.findForShop, hempty]

/-- C8, as amended.  For the owner of an existing shop: when the shop has no
review, `getReviewsForShop` answers count 0, an empty list and the average 0,
and the report of `getShopAnalytics` carries the average 0.  Whenever
`getReviewsForShop` reports an average, the report of `getShopAnalytics`
carries the same number.  When the ratings of the shop's reviews are
non-negative integers whose sum stays below `2 ^ 53 / 20` and whose exact
mean does not lie halfway between two one-decimal values, both report the
binary64 number nearest to the exact mean rounded to one decimal place. -/
theorem averageRating_report (isObjectId : String → Bool) (createdAt : Review → Int)
    (tza now : Int) (shops : List Shop) (orders : List Order) (users : List User)
    (reviews : List Review) (shopId : String) (duration : Option String) (vendor : Vendor)
    (shop : Shop) (hfound : Shop.findById isObjectId shops shopId = Lookup.found shop)
    (howner : shop.owner = vendor._id) :
    (reviews.filter (fun r => r.shop == shopId) = [] →
      getReviewsForShop isObjectId createdAt users reviews shopId =
        { status := 200, success := true, message := none, count := some 0,
          averageRating := some 0, data := some [] } ∧
      ∃ d, (getShopAnalytics isObjectId tza now shops orders users reviews shopId duration
          vendor).data = some d ∧ d.averageRating = 0) ∧
    (∀ v, (getReviewsForShop isObjectId createdAt users reviews shopId).averageRating = some v →
      ∃ d, (getShopAnalytics isObjectId tza now shops orders users reviews shopId duration
          vendor).data = some d ∧ d.averageRating = v) ∧
    (∀ ratings : List Nat, ratings ≠ [] →
      (reviews.filter (fun r => r.shop == shopId)).map (fun r => r.rating) =
        ratings.map (fun (n : Nat) => JsVal.num (n : Int)) →
      20 * ratings.sum < 2 ^ 53 →
      (∀ k : ℤ, 10 * exactMean ratings + 1 / 2 ≠ k) →
      (getReviewsForShop isObjectId createdAt users reviews shopId).status = 200 ∧
      (getReviewsForShop isObjectId createdAt users reviews shopId).count =
        some ratings.length ∧
      (getReviewsForShop isObjectId createdAt users reviews shopId).averageRating =
        some (toDouble (roundedToOneDecimal (exactMean ratings))) ∧
      ∃ d, (getShopAnalytics isObjectId tza now shops orders users reviews shopId duration
          vendor).data = some d ∧
        d.averageRating = toDouble (roundedToOneDecimal (exactMean ratings))) := by
  have hid := Shop.findById_found_castable isObjectId shops shopId shop hfound
  rw [getShopAnalytics_owner isObjectId tza now shops orders users reviews shopId duration
    vendor shop hfound howner]
  refine ⟨?_, ?_, ?_⟩
  · intro hempty
    refine ⟨getReviewsForShop_no_reviews isObjectId createdAt users reviews shopId hid hempty,
      _, rfl, ?_⟩
    simp [ratingAggregate_empty reviews shopId hempty, averageRatingOrZero]
  · intro v hv
    refine ⟨_, rfl, ?_⟩
    by_cases hempty : reviews.filter (fun r => r.shop == shopId) = []
    · rw [getReviewsForShop_no_reviews isObjectId createdAt users reviews shopId hid hempty]
        at hv
      simp only [Option.some.injEq] at hv
      simp [ratingAggregate_empty reviews shopId hempty, averageRatingOrZero, hv]
    · cases havg : avgOf ((reviews.filter (fun r => r.shop == shopId)).map
          (fun x => x.rating)) with
      | none =>
        unfold getReviewsForShop at hv
        rw [ratingAggregate_nonempty reviews shopId hempty] at hv
        simp [hid, havg, reviewsServerError] at hv
      | some avg =>
        have h := averageRating_of_avg isObjectId createdAt users reviews shopId avg hid
          hempty havg
        rw [h.1] at hv
        simp only [Option.some.injEq] at hv
        simp only
        rw [h.2, hv]
  · intro ratings hne hmap hsum htie
    have hlenpos : 0 < ratings.length := List.length_pos.mpr hne
    have hlen : (reviews.filter (fun r => r.shop == shopId)).length = ratings.length := by
      have := congrArg List.length hmap
      simpa using this
    have hnonempty : reviews.filter (fun r => r.shop == shopId) ≠ [] := by
      intro h
      rw [h] at hlen
      simp at hlen
      omega
    have havg : avgOf ((reviews.filter (fun r => r.shop == shopId)).map
        (fun x => x.rating)) = some (toDouble (exactMean ratings)) := by
      rw [hmap]
      exact avgOf_nums ratings hne
    have h := averageRating_of_avg isObjectId createdAt users reviews shopId _ hid
      hnonempty havg
    have hround : parseFloatToFixed1 (toDouble (exactMean ratings)) =
        toDouble (roundedToOneDecimal (exactMean ratings)) := by
      unfold parseFloatToFixed1 roundedToOneDecimal exactMean
      rw [toFixed1_toDouble_mean ratings.sum ratings.length hlenpos hsum htie]
    rw [h.1]
    refine ⟨rfl, by simp [hlen], by simp [hround], _, rfl, ?_⟩
    simp only
    rw [h.2, hround]

theorem exactMean_ratings87 : exactMean ratings87 = 87 / 20 := by
  have hs : ratings87.sum = 87 := by decide
  have hl : ratings87.length = 20 := by decide
  unfold exactMean
  rw [hs, hl]
  norm_num

/-- Witness for C8: shop `S` with the two ratings 5 and 4, exact mean 4.5;
both handlers report the number nearest to 4.5. -/
theorem averageRating_report_witness :
    Shop.findById isHex24 [shopS] idS = Lookup.found shopS ∧
    shopS.owner = (plainVendor idV1)._id ∧
    (getReviewsForShop isHex24 sameInstant sampleUsers [ratedReview 5, ratedReview 4]
        idS).averageRating = some (toDouble (roundedToOneDecimal (exactMean [5, 4]))) ∧
    roundedToOneDecimal (exactMean [5, 4]) = 45 / 10 ∧
    (getReviewsForShop isHex24 sameInstant sampleUsers [] idS).averageRating = some 0 := by
  have h1 : Shop.findById isHex24 [shopS] idS = Lookup.found shopS := by decide
  have h2 : shopS.owner = (plainVendor idV1)._id := by decide
  have hmean : exactMean [5, 4] = 9 / 2 := by
    unfold exactMean
    norm_num
  have hA := averageRating_report isHex24 sameInstant 0 sampleNow [shopS] sampleOrders
    sampleUsers [ratedReview 5, ratedReview 4] idS none (plainVendor idV1) shopS h1 h2
  have hB := averageRating_report isHex24 sameInstant 0 sampleNow [shopS] sampleOrders
    sampleUsers [] idS none (plainVendor idV1) shopS h1 h2
  have htie : ∀ k : ℤ, 10 * exactMean [5, 4] + 1 / 2 ≠ k := by
    intro k h
    rw [hmean] at h
    have h' : (91 : ℚ) = 2 * k := by linarith
    have h'' : (91 : ℤ) = 2 * k := by exact_mod_cast h'
    omega
  have hC := hA.2.2 [5, 4] (by decide) (by simp [ratedReview, idS]) (by decide) htie
  refine ⟨h1, h2, hC.2.2.1, ?_, ?_⟩
  · rw [hmean]
    unfold roundedToOneDecimal
    have : ⌊(10 : ℚ) * (9 / 2) + 1 / 2⌋ = 45 := by
      rw [Int.floor_eq_iff]
      constructor <;> norm_num
    rw [this]
    norm_num
  · rw [(hB.1 rfl).1]

/-- C8, counterexample.  Shop `S` has twenty reviews, seven rated 5 and
thirteen rated 4: the exact mean is 87/20 = 4.35, which rounded to one
decimal place is 4.4 (with a tie going up as with a tie going to the even
digit).  The binary64 mean lies below 4.35, `toFixed(1)` prints 4.3, and
both handlers report the number nearest to 4.3. -/
theorem averageRating_tie_reports_lower :
    (getReviewsForShop isHex24 sameInstant sampleUsers (ratings87.map ratedReview)
        idS).averageRating = some (toDouble (43 / 10)) ∧
    (getShopAnalytics isHex24 0 sampleNow [shopS] sampleOrders sampleUsers
        (ratings87.map ratedReview) idS none (plainVendor idV1)).data.map
        (fun d => d.averageRating) = some (toDouble (43 / 10)) ∧
    exactMean ratings87 = 87 / 20 ∧
    roundedToOneDecimal (exactMean ratings87) = 44 / 10 ∧
    roundHalfEven (10 * exactMean ratings87) = 44 ∧
    toDouble (43 / 10) ≠ toDouble (44 / 10) := by
  have h1 : Shop.findById isHex24 [shopS] idS = Lookup.found shopS := by decide
  have h2 : shopS.owner = (plainVendor idV1)._id := by decide
  have hid : isHex24 idS = true := by decide
  have hfilter : (ratings87.map ratedReview).filter (fun r => r.shop == idS) =
      ratings87.map ratedReview := by
    rw [List.filter_eq_self]
    intro r hr
    rw [List.mem_map] at hr
    obtain ⟨n, _, rfl⟩ := hr
    simp [ratedReview]
  have hne : (ratings87.map ratedReview).filter (fun r => r.shop == idS) ≠ [] := by
    rw [hfilter]
    intro h
    have hl := congrArg List.length h
    rw [List.length_map] at hl
    revert hl
    decide
  have hmap : ((ratings87.map ratedReview).filter (fun r => r.shop == idS)).map
      (fun x => x.rating) = ratings87.map (fun (n : Nat) => JsVal.num (n : Int)) := by
    rw [hfilter, List.map_map]
    rfl
  have havg : avgOf (((ratings87.map ratedReview).filter (fun r => r.shop == idS)).map
      (fun x => x.rating)) = some (toDouble (87 / 20)) := by
    rw [hmap, avgOf_nums ratings87 (by decide), exactMean_ratings87]
  have h := averageRating_of_avg isHex24 sameInstant sampleUsers (ratings87.map ratedReview)
    idS _ hid hne havg
  have hval : parseFloatToFixed1 (toDouble (87 / 20)) = toDouble (43 / 10) := by
    unfold parseFloatToFixed1
    rw [toFixed1_toDouble_87_20]
  refine ⟨?_, ?_, exactMean_ratings87, ?_, ?_, toDouble_43_ne_44⟩
  · rw [h.1, hval]
  · rw [getShopAnalytics_owner isHex24 0 sampleNow [shopS] sampleOrders sampleUsers
      (ratings87.map ratedReview) idS none (plainVendor idV1) shopS h1 h2]
    simp only [Option.map_some']
    rw [h.2, hval]
  · rw [exactMean_ratings87]
    unfold roundedToOneDecimal
    have : ⌊(10 : ℚ) * (87 / 20) + 1 / 2⌋ = 44 := by
      rw [Int.floor_eq_iff]
      constructor <;> norm_num
    rw [this]
    norm_num
  · rw [exactMean_ratings87]
    have e : (10 : ℚ) * (87 / 20) = 87 / 2 := by norm_num
    rw [e]
    unfold roundHalfEven
    have hf : ⌊(87 / 2 : ℚ)⌋ = 43 := by
      rw [Int.floor_eq_iff]
      constructor <;> norm_num
    simp only [hf]
    norm_num

/-! ## Date range -/

theorem DayFromYear_succ (y : Int) :
    DayFromYear (y + 1) = DayFromYear y + 365 + leapDays y := by
  unfold DayFromYear leapDays
  split_ifs <;> omega

theorem leapDays_range (y : Int) : 0 ≤ leapDays y ∧ leapDays y ≤ 1 := by
  unfold leapDays
  split_ifs <;> omega

theorem DayFromYear_bounds (y : Int) :
    146097 * (y - 1970) - 506 ≤ 400 * DayFromYear y ∧
      400 * DayFromYear y ≤ 146097 * (y - 1970) + 589 := by
  unfold DayFromYear
  omega

/-- The computed year is the one the language specification asks for: the
day lies between 1 January of that year and 1 January of the next. -/
theorem yearFromDay_spec (d : Int) :
    DayFromYear (yearFromDay d) ≤ d ∧ d < DayFromYear (yearFromDay d + 1) := by
  unfold yearFromDay
  simp only
  have hq : 146097 * ((400 * d) / 146097) ≤ 400 * d ∧
      400 * d < 146097 * ((400 * d) / 146097) + 146097 := by omega
  generalize (400 * d) / 146097 = q at hq ⊢
  have b0 := DayFromYear_bounds (1970 + q - 1)
  have b2 := DayFromYear_bounds (1970 + q + 1 + 1)
  split_ifs with h1 h2
  · have e : 1970 + q - 1 + 1 = 1970 + q := by ring
    rw [e]
    exact ⟨by omega, h1⟩
  · exact ⟨h2, by omega⟩
  · exact ⟨by omega, by omega⟩

theorem DayFromYear_add (y : Int) (n : Nat) :
    DayFromYear y + 365 * n ≤ DayFromYear (y + n) := by
  induction n with
  | zero => simp
  | succ k ih =>
    have h := DayFromYear_succ (y + k)
    have hl := leapDays_range (y + k)
    have e : y + ((k + 1 : Nat) : Int) = y + k + 1 := by push_cast; ring
    rw [e, h]
    push_cast
    omega

theorem DayFromYear_mono (a b : Int) (h : a ≤ b) : DayFromYear a ≤ DayFromYear b := by
  obtain ⟨n, rfl⟩ : ∃ n : Nat, b = a + n := ⟨(b - a).toNat, by omega⟩
  have := DayFromYear_add a n
  omega

theorem yearFromDay_unique (d y : Int) (h1 : DayFromYear y ≤ d)
    (h2 : d < DayFromYear (y + 1)) : yearFromDay d = y := by
  have h := yearFromDay_spec d
  generalize yearFromDay d = z at h
  rcases lt_trichotomy z y with hlt | heq | hgt
  · have := DayFromYear_mono (z + 1) y (by omega)
    omega
  · exact heq
  · have := DayFromYear_mono (y + 1) z (by omega)
    omega

theorem monthOfDayInYear_cases (l dwy : Int) :
    (dwy < 31 ∧ monthOfDayInYear l dwy = 0) ∨
    (31 ≤ dwy ∧ dwy < 59 + l ∧ monthOfDayInYear l dwy = 1) ∨
    (59 + l ≤ dwy ∧ dwy < 90 + l ∧ monthOfDayInYear l dwy = 2) ∨
    (90 + l ≤ dwy ∧ dwy < 120 + l ∧ monthOfDayInYear l dwy = 3) ∨
    (120 + l ≤ dwy ∧ dwy < 151 + l ∧ monthOfDayInYear l dwy = 4) ∨
    (151 + l ≤ dwy ∧ dwy < 181 + l ∧ monthOfDayInYear l dwy = 5) ∨
    (181 + l ≤ dwy ∧ dwy < 212 + l ∧ monthOfDayInYear l dwy = 6) ∨
    (212 + l ≤ dwy ∧ dwy < 243 + l ∧ monthOfDayInYear l dwy = 7) ∨
    (243 + l ≤ dwy ∧ dwy < 273 + l ∧ monthOfDayInYear l dwy = 8) ∨
    (273 + l ≤ dwy ∧ dwy < 304 + l ∧ monthOfDayInYear l dwy = 9) ∨
    (304 + l ≤ dwy ∧ dwy < 334 + l ∧ monthOfDayInYear l dwy = 10) ∨
    (334 + l ≤ dwy ∧ monthOfDayInYear l dwy = 11) := by
  unfold monthOfDayInYear
  by_cases h0 : dwy < 31
  · left
    exact ⟨h0, by simp only [if_pos h0]⟩
  by_cases h1 : dwy < 59 + l
  · right; left
    exact ⟨by omega, h1, by simp only [if_neg h0, if_pos h1]⟩
  by_cases h2 : dwy < 90 + l
  · right; right; left
    exact ⟨by omega, h2, by simp only [if_neg h0, if_neg h1, if_pos h2]⟩
  by_cases h3 : dwy < 120 + l
  · right; right; right; left
    exact ⟨by omega, h3, by simp only [if_neg h0, if_neg h1, if_neg h2, if_pos h3]⟩
  by_cases h4 : dwy < 151 + l
  · right; right; right; right; left
    exact ⟨by omega, h4, by simp only [if_neg h0, if_neg h1, if_neg h2, if_neg h3, if_pos h4]⟩
  by_cases h5 : dwy < 181 + l
  · right; right; right; right; right; left
    exact ⟨by omega, h5, by simp only [if_neg h0, if_neg h1, if_neg h2, if_neg h3, if_neg h4, if_pos h5]⟩
  by_cases h6 : dwy < 212 + l
  · right; right; right; right; right; right; left
    exact ⟨by omega, h6, by simp only [if_neg h0, if_neg h1, if_neg h2, if_neg h3, if_neg h4, if_neg h5, if_pos h6]⟩
  by_cases h7 : dwy < 243 + l
  · right; right; right; right; right; right; right; left
    exact ⟨by omega, h7, by simp only [if_neg h0, if_neg h1, if_neg h2, if_neg h3, if_neg h4, if_neg h5, if_neg h6, if_pos h7]⟩
  by_cases h8 : dwy < 273 + l
  · right; right; right; right; right; right; right; right; left
    exact ⟨by omega, h8, by simp only [if_neg h0, if_neg h1, if_neg h2, if_neg h3, if_neg h4, if_neg h5, if_neg h6, if_neg h7, if_pos h8]⟩
  by_cases h9 : dwy < 304 + l
  · right; right; right; right; right; right; right; right; right; left
    exact ⟨by omega, h9, by simp only [if_neg h0, if_neg h1, if_neg h2, if_neg h3, if_neg h4, if_neg h5, if_neg h6, if_neg h7, if_neg h8, if_pos h9]⟩
  by_cases h10 : dwy < 334 + l
  · right; right; right; right; right; right; right; right; right; right; left
    exact ⟨by omega, h10, by simp only [if_neg h0, if_neg h1, if_neg h2, if_neg h3, if_neg h4, if_neg h5, if_neg h6, if_neg h7, if_neg h8, if_neg h9, if_pos h10]⟩
  right; right; right; right; right; right; right; right; right; right; right
  exact ⟨by omega, by simp only [if_neg h0, if_neg h1, if_neg h2, if_neg h3, if_neg h4, if_neg h5, if_neg h6, if_neg h7, if_neg h8, if_neg h9, if_neg h10]⟩

theorem monthStart_cases (l m : Int) :
    (m = 0 ∧ monthStart l m = 0) ∨
    (m = 1 ∧ monthStart l m = 31) ∨
    (m = 2 ∧ monthStart l m = 59 + l) ∨
    (m = 3 ∧ monthStart l m = 90 + l) ∨
    (m = 4 ∧ monthStart l m = 120 + l) ∨
    (m = 5 ∧ monthStart l m = 151 + l) ∨
    (m = 6 ∧ monthStart l m = 181 + l) ∨
    (m = 7 ∧ monthStart l m = 212 + l) ∨
    (m = 8 ∧ monthStart l m = 243 + l) ∨
    (m = 9 ∧ monthStart l m = 273 + l) ∨
    (m = 10 ∧ monthStart l m = 304 + l) ∨
    ((m < 0 ∨ 11 ≤ m) ∧ monthStart l m = 334 + l) := by
  unfold monthStart
  by_cases h0 : m = 0
  · left
    exact ⟨h0, by simp only [if_pos h0]⟩
  by_cases h1 : m = 1
  · right; left
    exact ⟨h1, by simp only [if_neg h0, if_pos h1]⟩
  by_cases h2 : m = 2
  · right; right; left
    exact ⟨h2, by simp only [if_neg h0, if_neg h1, if_pos h2]⟩
  by_cases h3 : m = 3
  · right; right; right; left
    exact ⟨h3, by simp only [if_neg h0, if_neg h1, if_neg h2, if_pos h3]⟩
  by_cases h4 : m = 4
  · right; right; right; right; left
    exact ⟨h4, by simp only [if_neg h0, if_neg h1, if_neg h2, if_neg h3, if_pos h4]⟩
  by_cases h5 : m = 5
  · right; right; right; right; right; left
    exact ⟨h5, by simp only [if_neg h0, if_neg h1, if_neg h2, if_neg h3, if_neg h4, if_pos h5]⟩
  by_cases h6 : m = 6
  · right; right; right; right; right; right; left
    exact ⟨h6, by simp only [if_neg h0, if_neg h1, if_neg h2, if_neg h3, if_neg h4, if_neg h5, if_pos h6]⟩
  by_cases h7 : m = 7
  · right; right; right; right; right; right; right; left
    exact ⟨h7, by simp only [if_neg h0, if_neg h1, if_neg h2, if_neg h3, if_neg h4, if_neg h5, if_neg h6, if_pos h7]⟩
  by_cases h8 : m = 8
  · right; right; right; right; right; right; right; right; left
    exact ⟨h8, by simp only [if_neg h0, if_neg h1, if_neg h2, if_neg h3, if_neg h4, if_neg h5, if_neg h6, if_neg h7, if_pos h8]⟩
  by_cases h9 : m = 9
  · right; right; right; right; right; right; right; right; right; left
    exact ⟨h9, by simp only [if_neg h0, if_neg h1, if_neg h2, if_neg h3, if_neg h4, if_neg h5, if_neg h6, if_neg h7, if_neg h8, if_pos h9]⟩
  by_cases h10 : m = 10
  · right; right; right; right; right; right; right; right; right; right; left
    exact ⟨h10, by simp only [if_neg h0, if_neg h1, if_neg h2, if_neg h3, if_neg h4, if_neg h5, if_neg h6, if_neg h7, if_neg h8, if_neg h9, if_pos h10]⟩
  right; right; right; right; right; right; right; right; right; right; right
  exact ⟨by omega, by simp only [if_neg h0, if_neg h1, if_neg h2, if_neg h3, if_neg h4, if_neg h5, if_neg h6, if_neg h7, if_neg h8, if_neg h9, if_neg h10]⟩

theorem monthOfDayInYear_range (l dwy : Int) :
    0 ≤ monthOfDayInYear l dwy ∧ monthOfDayInYear l dwy ≤ 11 := by
  rcases monthOfDayInYear_cases l dwy with h | h | h | h | h | h | h | h | h | h | h | h <;>
    omega

theorem monthStart_monthOfDayInYear (l dwy : Int) (hl0 : 0 ≤ l) (hl1 : l ≤ 1)
    (h0 : 0 ≤ dwy) : monthStart l (monthOfDayInYear l dwy) ≤ dwy := by
  rcases monthOfDayInYear_cases l dwy with h | h | h | h | h | h | h | h | h | h | h | h <;>
    rcases monthStart_cases l (monthOfDayInYear l dwy) with
      g | g | g | g | g | g | g | g | g | g | g | g <;> omega

theorem daysInMonth_cases (l m : Int) :
    (m = 1 ∧ daysInMonth l m = 28 + l) ∨
    ((m = 3 ∨ m = 5 ∨ m = 8 ∨ m = 10) ∧ daysInMonth l m = 30) ∨
    (m ≠ 1 ∧ m ≠ 3 ∧ m ≠ 5 ∧ m ≠ 8 ∧ m ≠ 10 ∧ daysInMonth l m = 31) := by
  unfold daysInMonth
  by_cases h1 : m = 1
  · left; exact ⟨h1, by simp only [if_pos h1]⟩
  · by_cases h2 : m = 3 ∨ m = 5 ∨ m = 8 ∨ m = 10
    · right; left; exact ⟨h2, by simp only [if_neg h1, if_pos h2]⟩
    · right; right
      refine ⟨h1, by omega, by omega, by omega, by omega, by simp only [if_neg h1, if_neg h2]⟩

theorem monthOfDayInYear_unique (l m dwy : Int) (hl0 : 0 ≤ l) (hl1 : l ≤ 1)
    (hm0 : 0 ≤ m) (hm1 : m ≤ 11) (h1 : monthStart l m ≤ dwy)
    (h2 : dwy < monthStart l m + daysInMonth l m) : monthOfDayInYear l dwy = m := by
  rcases monthOfDayInYear_cases l dwy with h | h | h | h | h | h | h | h | h | h | h | h <;>
    rcases monthStart_cases l m with
      g | g | g | g | g | g | g | g | g | g | g | g <;>
    rcases daysInMonth_cases l m with d | d | d <;> omega

theorem monthStart_mono (l a b : Int) (hl0 : 0 ≤ l) (ha : 0 ≤ a) (hab : a ≤ b)
    (hb : b ≤ 11) : monthStart l a ≤ monthStart l b := by
  rcases monthStart_cases l a with h | h | h | h | h | h | h | h | h | h | h | h <;>
    rcases monthStart_cases l b with
      g | g | g | g | g | g | g | g | g | g | g | g <;> omega

theorem monthStart_range (l m : Int) (hl0 : 0 ≤ l) :
    0 ≤ monthStart l m ∧ monthStart l m ≤ 334 + l := by
  rcases monthStart_cases l m with h | h | h | h | h | h | h | h | h | h | h | h <;> omega

theorem monthStart_add_daysInMonth (l m : Int) (hl0 : 0 ≤ l) (hl1 : l ≤ 1) :
    monthStart l m + daysInMonth l m ≤ 365 + l := by
  rcases monthStart_cases l m with h | h | h | h | h | h | h | h | h | h | h | h <;>
    rcases daysInMonth_cases l m with d | d | d <;> omega

theorem DayWithinYear_range (t : Int) :
    0 ≤ DayWithinYear t ∧ DayWithinYear t < 365 + leapDays (YearFromTime t) := by
  unfold DayWithinYear YearFromTime
  have h := yearFromDay_spec (Day t)
  have hs := DayFromYear_succ (yearFromDay (Day t))
  omega

theorem MonthFromTime_range (t : Int) : 0 ≤ MonthFromTime t ∧ MonthFromTime t ≤ 11 :=
  monthOfDayInYear_range _ _

theorem DateFromTime_pos (t : Int) : 1 ≤ DateFromTime t := by
  unfold DateFromTime MonthFromTime
  have hl := leapDays_range (YearFromTime t)
  have hd := DayWithinYear_range t
  have := monthStart_monthOfDayInYear (leapDays (YearFromTime t)) (DayWithinYear t)
    hl.1 hl.2 hd.1
  omega

/-- The day number of a time value is recovered from its year, month and
day of the month; shifting the day of the month shifts the day number. -/
theorem MakeDay_shift (t k : Int) :
    MakeDay (YearFromTime t) (MonthFromTime t) (DateFromTime t + k) = Day t + k := by
  have hm := MonthFromTime_range t
  have h1 : MonthFromTime t / 12 = 0 := by omega
  have h2 : MonthFromTime t % 12 = MonthFromTime t := by omega
  unfold MakeDay
  simp only [h1, h2, add_zero]
  unfold DateFromTime DayWithinYear
  omega

theorem day_decomposition (t : Int) :
    Day t * msPerDay + TimeWithinDay t = t ∧ 0 ≤ TimeWithinDay t ∧
      TimeWithinDay t < msPerDay := by
  unfold Day TimeWithinDay msPerDay
  omega

theorem Day_MakeDate (d r : Int) (h0 : 0 ≤ r) (h1 : r < msPerDay) :
    Day (MakeDate d r) = d ∧ TimeWithinDay (MakeDate d r) = r := by
  unfold Day TimeWithinDay MakeDate msPerDay at *
  omega

theorem setHours_midnight (tza t : Int) :
    setHours tza t 0 0 0 0 = t - TimeWithinDay (LocalTime tza t) := by
  have h := day_decomposition (LocalTime tza t)
  unfold setHours UTC MakeDate MakeTime
  simp only
  unfold LocalTime at *
  omega

theorem setDate_shift (tza t k : Int) :
    setDate tza t (getDate tza t + k) = t + k * msPerDay := by
  have h := day_decomposition (LocalTime tza t)
  unfold setDate getDate
  simp only
  rw [MakeDay_shift]
  unfold UTC MakeDate
  unfold LocalTime msPerDay at *
  omega

/-- The local day number that `setMonth` arrives at when the month is set
`k` months back. -/
theorem setMonth_local (tza t k : Int) :
    LocalTime tza (setMonth tza t (getMonth tza t - k)) =
      MakeDate (MakeDay (YearFromTime (LocalTime tza t)) (getMonth tza t - k)
        (DateFromTime (LocalTime tza t))) (TimeWithinDay (LocalTime tza t)) := by
  unfold setMonth UTC
  simp only
  unfold LocalTime
  omega

theorem MakeDay_back_le (t k : Int) (hk0 : 0 ≤ k) (hk1 : k ≤ 12) :
    MakeDay (YearFromTime t) (MonthFromTime t - k) (DateFromTime t) ≤ Day t := by
  have hm := MonthFromTime_range t
  have hday := MakeDay_shift t 0
  rw [add_zero, add_zero] at hday
  rw [← hday]
  have h1 : MonthFromTime t / 12 = 0 := by omega
  have h2 : MonthFromTime t % 12 = MonthFromTime t := by omega
  unfold MakeDay
  simp only [h1, h2, add_zero]
  by_cases hge : 0 ≤ MonthFromTime t - k
  · have e1 : (MonthFromTime t - k) / 12 = 0 := by omega
    have e2 : (MonthFromTime t - k) % 12 = MonthFromTime t - k := by omega
    simp only [e1, e2, add_zero]
    have hl := leapDays_range (YearFromTime t)
    have := monthStart_mono (leapDays (YearFromTime t)) (MonthFromTime t - k) (MonthFromTime t)
      hl.1 hge (by omega) hm.2
    omega
  · have e1 : (MonthFromTime t - k) / 12 = -1 := by omega
    have e2 : (MonthFromTime t - k) % 12 = MonthFromTime t - k + 12 := by omega
    simp only [e1, e2]
    have hl := leapDays_range (YearFromTime t + -1)
    have hl' := leapDays_range (YearFromTime t)
    have hs := DayFromYear_succ (YearFromTime t + -1)
    have e3 : YearFromTime t + -1 + 1 = YearFromTime t := by ring
    rw [e3] at hs
    have r1 := monthStart_range (leapDays (YearFromTime t + -1)) (MonthFromTime t - k + 12) hl.1
    have r2 := monthStart_range (leapDays (YearFromTime t)) (MonthFromTime t) hl'.1
    omega

theorem setMonth_back_le (tza t k : Int) (hk0 : 0 ≤ k) (hk1 : k ≤ 12) :
    setMonth tza t (getMonth tza t - k) ≤ t := by
  have h := day_decomposition (LocalTime tza t)
  have hle := MakeDay_back_le (LocalTime tza t) k hk0 hk1
  unfold setMonth getMonth UTC MakeDate
  simp only
  unfold LocalTime msPerDay at *
  omega

/-- The calendar fields of the day that `MakeDay` builds from a year, a
month offset and a day of the month that exists in the month arrived at. -/
theorem fields_of_MakeDay (year month date r : Int) (hd1 : 1 ≤ date)
    (hd2 : date ≤ daysInMonth (leapDays (year + month / 12)) (month % 12))
    (hr0 : 0 ≤ r) (hr1 : r < msPerDay) :
    YearFromTime (MakeDate (MakeDay year month date) r) = year + month / 12 ∧
    MonthFromTime (MakeDate (MakeDay year month date) r) = month % 12 ∧
    DateFromTime (MakeDate (MakeDay year month date) r) = date := by
  have hday := (Day_MakeDate (MakeDay year month date) r hr0 hr1).1
  have hl := leapDays_range (year + month / 12)
  have hm0 : 0 ≤ month % 12 := by omega
  have hm1 : month % 12 ≤ 11 := by omega
  have hms := monthStart_range (leapDays (year + month / 12)) (month % 12) hl.1
  have hmd := monthStart_add_daysInMonth (leapDays (year + month / 12)) (month % 12) hl.1 hl.2
  have hsucc := DayFromYear_succ (year + month / 12)
  have hmk : MakeDay year month date =
      DayFromYear (year + month / 12) +
        monthStart (leapDays (year + month / 12)) (month % 12) + date - 1 := rfl
  have hyear : YearFromTime (MakeDate (MakeDay year month date) r) = year + month / 12 := by
    unfold YearFromTime
    rw [hday]
    apply yearFromDay_unique
    · omega
    · omega
  have hdwy : DayWithinYear (MakeDate (MakeDay year month date) r) =
      monthStart (leapDays (year + month / 12)) (month % 12) + date - 1 := by
    unfold DayWithinYear
    rw [hyear, hday]
    omega
  have hmonth : MonthFromTime (MakeDate (MakeDay year month date) r) = month % 12 := by
    unfold MonthFromTime
    rw [hyear, hdwy]
    apply monthOfDayInYear_unique _ _ _ hl.1 hl.2 hm0 hm1
    · omega
    · omega
  refine ⟨hyear, hmonth, ?_⟩
  unfold DateFromTime
  rw [hyear, hmonth, hdwy]
  omega

theorem setMonth_back_fields (tza t k : Int)
    (hd : getDate tza t ≤ monthsBackLength tza t k) :
    calendarMonthIndex tza (setMonth tza t (getMonth tza t - k)) =
        calendarMonthIndex tza t - k ∧
      getDate tza (setMonth tza t (getMonth tza t - k)) = getDate tza t := by
  have hdec := day_decomposition (LocalTime tza t)
  have hpos := DateFromTime_pos (LocalTime tza t)
  have hf := fields_of_MakeDay (YearFromTime (LocalTime tza t)) (getMonth tza t - k)
    (DateFromTime (LocalTime tza t)) (TimeWithinDay (LocalTime tza t)) hpos hd hdec.2.1 hdec.2.2
  unfold calendarMonthIndex
  rw [getDate, setMonth_local, hf.1, hf.2.1, hf.2.2]
  refine ⟨?_, rfl⟩
  unfold getMonth
  omega

theorem setMonth_timeWithinDay (tza t k : Int) :
    TimeWithinDay (LocalTime tza (setMonth tza t (getMonth tza t - k))) =
      TimeWithinDay (LocalTime tza t) := by
  have hdec := day_decomposition (LocalTime tza t)
  rw [setMonth_local]
  exact (Day_MakeDate _ _ hdec.2.1 hdec.2.2).2

theorem monthsBackLength_ge (tza now k : Int) : 28 ≤ monthsBackLength tza now k := by
  unfold monthsBackLength
  have hl := leapDays_range (YearFromTime (LocalTime tza now) + (getMonth tza now - k) / 12)
  rcases daysInMonth_cases
    (leapDays (YearFromTime (LocalTime tza now) + (getMonth tza now - k) / 12))
    ((getMonth tza now - k) % 12) with d | d | d <;> omega

theorem getDateRange_day (tza now : Int) :
    (getDateRange tza now "day").startDate = now - TimeWithinDay (LocalTime tza now) := by
  simp [getDateRange, setHours_midnight]

theorem getDateRange_week (tza now : Int) :
    (getDateRange tza now "week").startDate = now - 7 * msPerDay := by
  have h := setDate_shift tza now (-7)
  have e : getDate tza now + -7 = getDate tza now - 7 := by ring
  rw [e] at h
  simp [getDateRange, h]
  ring

theorem getDateRange_months (tza now : Int) (p : String × Int)
    (hp : p ∈ [("month", (1 : Int)), ("3month", 3), ("6month", 6)]) :
    (getDateRange tza now p.1).startDate = setMonth tza now (getMonth tza now - p.2) := by
  simp only [List.mem_cons, List.mem_singleton, List.not_mem_nil, or_false] at hp
  rcases hp with h | h | h <;> subst h <;> simp [getDateRange]

theorem getDateRange_start_le (tza now : Int) (h0 : 0 ≤ now) (duration : String) :
    (getDateRange tza now duration).startDate ≤ (getDateRange tza now duration).endDate := by
  have hdec := day_decomposition (LocalTime tza now)
  by_cases h1 : duration = "day"
  · subst h1
    rw [getDateRange_day]
    simp only [getDateRange]
    omega
  by_cases h2 : duration = "week"
  · subst h2
    rw [getDateRange_week]
    simp only [getDateRange, msPerDay]
    omega
  by_cases h3 : duration = "month"
  · subst h3
    rw [getDateRange_months tza now ("month", 1) (by simp)]
    exact setMonth_back_le tza now 1 (by omega) (by omega)
  by_cases h4 : duration = "3month"
  · subst h4
    rw [getDateRange_months tza now ("3month", 3) (by simp)]
    exact setMonth_back_le tza now 3 (by omega) (by omega)
  by_cases h5 : duration = "6month"
  · subst h5
    rw [getDateRange_months tza now ("6month", 6) (by simp)]
    exact setMonth_back_le tza now 6 (by omega) (by omega)
  simp [getDateRange, h1, h2, h3, h4, h5, h0]

/-- C10, as amended.  With the clock value `now` as an input and local time
at a fixed offset from UTC, `getDateRange` returns `endDate = now` and a
`startDate` equal to: local midnight of the local day of `now` for `day`;
`now` minus seven days for `week`; for `month`, `3month`, `6month` an instant
not after `now`, with the local time of day of `now`, which falls on the same
day of the month 1, 3, 6 calendar months earlier whenever that day of the
month exists in that month (it does when it is at most 28); the epoch for
every other string.  For a clock at or after the epoch `startDate ≤ endDate`
for every duration.  Under `week` a completed order created two days before
`now` matches the range and one created ten days before does not; under
`day` no order created on an earlier local day matches. -/
theorem getDateRange_spec (tza now : Int) :
    (∀ duration, (getDateRange tza now duration).endDate = now) ∧
    ((getDateRange tza now "day").startDate = now - TimeWithinDay (LocalTime tza now) ∧
      Day (LocalTime tza (getDateRange tza now "day").startDate) = Day (LocalTime tza now) ∧
      TimeWithinDay (LocalTime tza (getDateRange tza now "day").startDate) = 0) ∧
    (getDateRange tza now "week").startDate = now - 7 * msPerDay ∧
    (∀ p ∈ [("month", (1 : Int)), ("3month", 3), ("6month", 6)],
      (getDateRange tza now p.1).startDate ≤ now ∧
      TimeWithinDay (LocalTime tza (getDateRange tza now p.1).startDate) =
        TimeWithinDay (LocalTime tza now) ∧
      28 ≤ monthsBackLength tza now p.2 ∧
      (getDate tza now ≤ monthsBackLength tza now p.2 →
        calendarMonthIndex tza (getDateRange tza now p.1).startDate =
          calendarMonthIndex tza now - p.2 ∧
        getDate tza (getDateRange tza now p.1).startDate = getDate tza now)) ∧
    (∀ duration, duration ∉ ["day", "week", "month", "3month", "6month"] →
      (getDateRange tza now duration).startDate = 0) ∧
    (0 ≤ now → ∀ duration,
      (getDateRange tza now duration).startDate ≤ (getDateRange tza now duration).endDate) ∧
    (∀ shopId (o : Order), o.shop = shopId → o.orderStatus = "Completed" →
      (o.createdAt = now - 2 * msPerDay →
        matchesCompletedInRange shopId (getDateRange tza now "week") o = true) ∧
      (o.createdAt = now - 10 * msPerDay →
        matchesCompletedInRange shopId (getDateRange tza now "week") o = false)) ∧
    (∀ shopId (o : Order), Day (LocalTime tza o.createdAt) < Day (LocalTime tza now) →
      matchesCompletedInRange shopId (getDateRange tza now "day") o = false) := by
  have hdec := day_decomposition (LocalTime tza now)
  have hend : ∀ duration, (getDateRange tza now duration).endDate = now := fun _ => rfl
  refine ⟨hend, ⟨getDateRange_day tza now, ?_, ?_⟩, getDateRange_week tza now, ?_, ?_,
    fun h0 d => getDateRange_start_le tza now h0 d, ?_, ?_⟩
  · rw [getDateRange_day]
    unfold Day TimeWithinDay LocalTime msPerDay at *
    omega
  · rw [getDateRange_day]
    unfold Day TimeWithinDay LocalTime msPerDay at *
    omega
  · intro p hp
    rw [getDateRange_months tza now p hp]
    have hk : 0 ≤ p.2 ∧ p.2 ≤ 12 := by
      simp only [List.mem_cons, List.mem_singleton, List.not_mem_nil, or_false] at hp
      rcases hp with h | h | h <;> subst h <;> constructor <;> decide
    exact ⟨setMonth_back_le tza now p.2 hk.1 hk.2, setMonth_timeWithinDay tza now p.2,
      monthsBackLength_ge tza now p.2, setMonth_back_fields tza now p.2⟩
  · intro duration hnot
    simp only [List.mem_cons, List.mem_singleton, List.not_mem_nil, or_false, not_or] at hnot
    simp [getDateRange, hnot.1, hnot.2.1, hnot.2.2.1, hnot.2.2.2.1, hnot.2.2.2.2]
  · intro shopId o hs hc
    have hw := getDateRange_week tza now
    refine ⟨?_, ?_⟩
    · intro hcreated
      simp only [matchesCompletedInRange, hs, hc, hw, hend, hcreated, beq_self_eq_true,
        Bool.true_and, Bool.and_eq_true, decide_eq_true_eq, msPerDay]
      omega
    · intro hcreated
      have hlt : ¬ (now - 7 * msPerDay ≤ now - 10 * msPerDay) := by
        unfold msPerDay; omega
      simp [matchesCompletedInRange, hw, hcreated, hlt]
  · intro shopId o hday
    have hlt : ¬ (now - TimeWithinDay (LocalTime tza now) ≤ o.createdAt) := by
      unfold Day TimeWithinDay LocalTime msPerDay at *
      omega
    simp [matchesCompletedInRange, getDateRange_day, hlt]

/-- Witness for C10: at 2023-11-14T22:13:20Z the `week` range starts seven
days earlier and holds one of the two completed sample orders, the one dated
two days ago, so the report shows one order and its amount; from
2023-05-01T12:00Z the `month` range starts on the first day of April. -/
theorem getDateRange_spec_witness :
    (0 : Int) ≤ sampleNow ∧
    (getDateRange 0 sampleNow "week").startDate = sampleNow - 7 * msPerDay ∧
    (getDateRange 0 sampleNow "week").startDate ≤ (getDateRange 0 sampleNow "week").endDate ∧
    (getShopAnalytics isHex24 0 sampleNow [shopS] weekOrders sampleUsers [] idS
        (some "week") (plainVendor idV1)).data.map
        (fun d => (d.totalOrders, d.totalRevenue)) = some (1, 450) ∧
    getDate 0 may1Noon ≤ monthsBackLength 0 may1Noon 1 ∧
    calendarMonthIndex 0 (getDateRange 0 may1Noon "month").startDate =
      calendarMonthIndex 0 may1Noon - 1 ∧
    getDate 0 (getDateRange 0 may1Noon "month").startDate = 1 := by
  have h0 : (0 : Int) ≤ sampleNow := by decide
  have hd : getDate 0 may1Noon ≤ monthsBackLength 0 may1Noon 1 := by decide
  have hs := getDateRange_spec 0 sampleNow
  have hm := (getDateRange_spec 0 may1Noon).2.2.2.1 ("month", 1) (by simp)
  refine ⟨h0, hs.2.2.1, hs.2.2.2.2.2.1 h0 "week", by decide, hd, (hm.2.2.2 hd).1, ?_⟩
  rw [(hm.2.2.2 hd).2]
  decide

/-- C10, counterexample.  At 2023-05-31T12:00Z the `month` range starts at
2023-05-01T12:00Z: April has no 31st day, the date rolls over, and the start
lies in the calendar month of `now`, not one calendar month before it.  With
a clock before the epoch the all-time range starts after it ends. -/
theorem getDateRange_month_rolls_over :
    (getDateRange 0 may31Noon "month").startDate = may1Noon ∧
    (YearFromTime may31Noon, MonthFromTime may31Noon, DateFromTime may31Noon) =
      (2023, 4, 31) ∧
    (YearFromTime may1Noon, MonthFromTime may1Noon, DateFromTime may1Noon) = (2023, 4, 1) ∧
    calendarMonthIndex 0 (getDateRange 0 may31Noon "month").startDate =
      calendarMonthIndex 0 may31Noon ∧
    (getDateRange 0 (-1) "all").endDate < (getDateRange 0 (-1) "all").startDate := by
  refine ⟨by decide, by decide, by decide, by decide, by decide⟩

end Menumate
